import Mathlib

/-!
Verification of npm3guard (src/npm3guard.py): manifest parsing, the
vulnerability catalog and range matcher, and the retrying request helper.

Strings from the Python source are modelled as `String` / `List Char`;
all helper functions below are written with structural recursion so that
concrete runs reduce inside the kernel.
-/

namespace Npm3Guard

/-! ## Character-list utilities (Python `str` operations) -/

/-- Python `str.strip()`: drop whitespace at both ends. -/
def trimChars (xs : List Char) : List Char :=
  ((xs.dropWhile Char.isWhitespace).reverse.dropWhile Char.isWhitespace).reverse

/-- Split at every character satisfying `p`, keeping empty groups
(Python `str.split(sep)` for a one-character separator). -/
def splitOnPred (p : Char → Bool) : List Char → List (List Char)
  | [] => [[]]
  | c :: rest =>
    if p c then [] :: splitOnPred p rest
    else
      match splitOnPred p rest with
      | [] => [[c]]
      | g :: gs => (c :: g) :: gs

/-- Python `str.split(sep)` for a one-character separator `sep`. -/
def splitOnChar (sep : Char) (xs : List Char) : List (List Char) :=
  splitOnPred (fun c => c = sep) xs

/-- Python `str.split()` with no argument: split on whitespace runs,
no empty groups. -/
def splitWhite (xs : List Char) : List (List Char) :=
  (splitOnPred Char.isWhitespace xs).filter (fun g => !g.isEmpty)

/-- Fuel-driven worker for `splitOnSeq`; the fuel starts at the input
length, and each recursive call consumes at least one input character. -/
def splitOnSeqFuel (sep : List Char) : Nat → List Char → List Char → List (List Char)
  | _, [], acc => [acc.reverse]
  | 0, xs, acc => [acc.reverse ++ xs]
  | fuel + 1, x :: xs, acc =>
    if sep.isPrefixOf (x :: xs) then
      acc.reverse :: splitOnSeqFuel sep fuel ((x :: xs).drop sep.length) []
    else
      splitOnSeqFuel sep fuel xs (x :: acc)

/-- Python `str.split(sep)` for a multi-character separator `sep`
(used for the `"||"` separator of npm ranges). -/
def splitOnSeq (sep xs : List Char) : List (List Char) :=
  splitOnSeqFuel sep xs.length xs []

/-! ## Version / range matcher

The range evaluation itself lives in the third-party `semantic_version`
library (`NpmSpec`, `Version`), which the spec treats as a black box with a
defined contract (§4.2): comparator sets joined by `||` are OR'd,
whitespace-separated comparators are AND'd, operators `=, <, <=, >, >=`,
and a bare version means exact equality.  The definitions in this section
are modelled from that contract; `is_version_in_range` itself is
translated from `VulnerabilityDatabase._is_version_in_range`. -/

/-- A concrete semantic version `major.minor.patch`. -/
structure SemVer where
  major : Nat
  minor : Nat
  patch : Nat
deriving DecidableEq, Repr

/-- Parse a non-empty all-digit character list as a decimal number. -/
def parseNatChars (xs : List Char) : Option Nat :=
  if !xs.isEmpty && xs.all Char.isDigit then
    some (xs.foldl (fun n c => 10 * n + (c.toNat - 48)) 0)
  else none

/-- Modelled from the spec: the version grammar of the black-box
`semantic_version.Version` — three dot-separated numeric components. -/
def parseVersionChars (xs : List Char) : Option SemVer :=
  match splitOnChar '.' xs with
  | [a, b, c] =>
    match parseNatChars a, parseNatChars b, parseNatChars c with
    | some x, some y, some z => some ⟨x, y, z⟩
    | _, _, _ => none
  | _ => none

/-- Strict lexicographic order on versions. -/
def SemVer.ltb (u v : SemVer) : Bool :=
  u.major < v.major ||
    (u.major = v.major &&
      (u.minor < v.minor || (u.minor = v.minor && u.patch < v.patch)))

/-- A comparison operator of the npm range grammar. -/
inductive CompOp where
  | ceq
  | clt
  | cle
  | cgt
  | cge
deriving DecidableEq, Repr

/-- One comparator of a range clause: an operator and a version. -/
structure Comparator where
  op : CompOp
  ver : SemVer
deriving DecidableEq, Repr

/-- Does version `v` satisfy comparator `c`? -/
def compSat (v : SemVer) (c : Comparator) : Bool :=
  match c.op with
  | .ceq => v = c.ver
  | .clt => v.ltb c.ver
  | .cle => v.ltb c.ver || v = c.ver
  | .cgt => c.ver.ltb v
  | .cge => c.ver.ltb v || v = c.ver

/-- Modelled from the spec: parse one comparator — an optional operator
out of `>=, <=, >, <, =` followed by a version; a bare version means
exact equality. -/
def parseComparator (xs : List Char) : Option Comparator :=
  if ['>', '='].isPrefixOf xs then (parseVersionChars (xs.drop 2)).map (⟨.cge, ·⟩)
  else if ['<', '='].isPrefixOf xs then (parseVersionChars (xs.drop 2)).map (⟨.cle, ·⟩)
  else if ['>'].isPrefixOf xs then (parseVersionChars (xs.drop 1)).map (⟨.cgt, ·⟩)
  else if ['<'].isPrefixOf xs then (parseVersionChars (xs.drop 1)).map (⟨.clt, ·⟩)
  else if ['='].isPrefixOf xs then (parseVersionChars (xs.drop 1)).map (⟨.ceq, ·⟩)
  else (parseVersionChars xs).map (⟨.ceq, ·⟩)

/-- Modelled from the spec: a clause is a whitespace-separated, AND'd,
non-empty list of comparators. -/
def parseClause (xs : List Char) : Option (List Comparator) :=
  let parts := splitWhite xs
  if parts.isEmpty then none
  else parts.mapM parseComparator

/-- Modelled from the spec: a range expression is a `||`-separated,
OR'd list of clauses (the grammar of the black-box `NpmSpec`). -/
def parseRangeChars (xs : List Char) : Option (List (List Comparator)) :=
  (splitOnSeq ['|', '|'] xs).mapM parseClause

/-- OR over clauses, AND over the comparators of a clause. -/
def rangeSat (spec : List (List Comparator)) (v : SemVer) : Bool :=
  spec.any (fun clause => clause.all (compSat v))

/-- Python `version.lstrip("^~")`. -/
def lstripTildeCaret (xs : List Char) : List Char :=
  xs.dropWhile (fun c => c = '^' || c = '~')

/-- `VulnerabilityDatabase._is_version_in_range`: build the range, then the
normalized version, then test membership; any parse failure (a raised
exception in the source) yields `false`. -/
def is_version_in_range (version range_expr : String) : Bool :=
  match parseRangeChars range_expr.data with
  | none => false
  | some spec =>
    match parseVersionChars (lstripTildeCaret version.data) with
    | none => false
    | some v => rangeSat spec v

/-! ## Vulnerability catalog -/

/-- One vulnerability rule, as stored in `self.vulnerabilities`
(a Python dict with keys range/severity/cve_id/description). -/
structure Vuln where
  range : String
  severity : String
  cve_id : Option String
  description : Option String
deriving DecidableEq, Repr

/-- The in-memory catalog `self.vulnerabilities : Dict[str, List[Dict]]`,
as an association list with distinct keys. -/
abbrev Catalog := List (String × List Vuln)

/-- Python dict lookup (`in` / `[]`) on an insertion-ordered dict whose
keys are distinct: first (= only) match, exact case-sensitive key. -/
def keyFind {β : Type} (m : List (String × β)) (k : String) : Option β :=
  match List.find? (fun e => e.1 = k) m with
  | none => none
  | some e => some e.2

/-- Python dict lookup (`in` / `[]`) on the catalog: exact,
case-sensitive key match. -/
def catFind (db : Catalog) (name : String) : Option (List Vuln) :=
  keyFind db name

/-- `VulnerabilityDatabase.is_vulnerable`: collect, in stored order, the
rules under `package_name` whose range matches `version`; a package with
no entry yields `[]`. -/
def is_vulnerable (db : Catalog) (package_name version : String) : List Vuln :=
  match catFind db package_name with
  | none => []
  | some vulns =>
    vulns.foldl (fun acc v => if is_version_in_range version v.range then acc ++ [v] else acc) []

/-! ## JSON values and Python dict operations

`json.loads` is Python's standard JSON decoder; its result is modelled as
`Option Json` (`none` = `json.JSONDecodeError`).  A decoded JSON object is
a field list; Python's decoder keeps one entry per key (the last), which
lookup via `jget` (last occurrence wins) reproduces on arbitrary field
lists. -/

/-- A decoded JSON value.  Numbers are irrelevant to every claim below and
are collapsed into `scalar` together with booleans and `null`: the
dependency groups and lock maps of the JSON manifest formats carry only
strings and objects at the places the scanner reads. -/
inductive Json where
  | str (s : String)
  | obj (fields : List (String × Json))
  | arr (items : List Json)
  | scalar

/-- Lookup in a decoded JSON object: last occurrence of the key wins,
matching `json.loads` duplicate-key handling. -/
def jget (fields : List (String × Json)) (k : String) : Option Json :=
  fields.foldl (fun r p => if p.1 = k then some p.2 else r) none

/-- Python `data.get(k)` — `none` when `data` is not an object (where the
source would raise and the enclosing handler return `[]`, which scanning
an empty dependency map reproduces). -/
def objGet (j : Json) (k : String) : Option Json :=
  match j with
  | .obj fields => jget fields k
  | _ => none

/-- Python `dict[k] = v` on an insertion-ordered dict: overwrite in place
when the key is present, append otherwise. -/
def dictInsert (m : List (String × Json)) (k : String) (v : Json) : List (String × Json) :=
  if m.any (fun p => p.1 = k) then
    m.map (fun p => if p.1 = k then (k, v) else p)
  else m ++ [(k, v)]

/-- Python `dict.update(other)`: insert every binding of `other` in order. -/
def dictUpdate (m : List (String × Json)) (kvs : List (String × Json)) : List (String × Json) :=
  kvs.foldl (fun acc p => dictInsert acc p.1 p.2) m

/-- First-match lookup on the merged dependency dict (its keys are kept
distinct by `dictInsert`, so this is the Python dict lookup). -/
def depFind (m : List (String × Json)) (k : String) : Option Json :=
  keyFind m k

/-! ## `GitHubHandler._scan_json_dependencies` -/

/-- The manifest-level group keys, in the order the source iterates them. -/
def manifestGroupKeys : List String :=
  ["dependencies", "devDependencies", "peerDependencies", "optionalDependencies"]

/-- One group of step 1 of `_scan_json_dependencies`:
`dependencies.update(deps)` when the group is present and is an object. -/
def manifestStep (data : Json) (acc : List (String × Json)) (key : String) :
    List (String × Json) :=
  match objGet data key with
  | some (.obj fields) => dictUpdate acc fields
  | _ => acc

/-- Step 1 of `_scan_json_dependencies`: update with each manifest-level
group in turn. -/
def manifestDeps (data : Json) : List (String × Json) :=
  manifestGroupKeys.foldl (manifestStep data) []

/-- One entry of the package-lock v1 loop: `if pkg not in dependencies:
dependencies[pkg] = info`. -/
def fillV1Step (m : List (String × Json)) (p : String × Json) : List (String × Json) :=
  if m.any (fun q => q.1 = p.1) then m else m ++ [p]

/-- Step 2: package-lock v1 — entries of the flat `"dependencies"` map
fill names not already present. -/
def fillLockV1 (data : Json) (acc : List (String × Json)) : List (String × Json) :=
  match objGet data "dependencies" with
  | some (.obj fields) => fields.foldl fillV1Step acc
  | _ => acc

/-- One entry of the package-lock v2 loop: an object value carrying a
truthy (non-empty) string `"name"` fills that name when still absent.
(A non-string `"name"` never occurs in lock files; in the source a
truthy unhashable one would abort the file via the enclosing handler.) -/
def fillV2Step (m : List (String × Json)) (p : String × Json) : List (String × Json) :=
  match p.2 with
  | .obj infoFields =>
    match jget infoFields "name" with
    | some (.str name) =>
      if name ≠ "" && !(m.any (fun q => q.1 = name)) then m ++ [(name, p.2)] else m
    | _ => m
  | _ => m

/-- Step 3: package-lock v2 — the path-keyed `"packages"` map fills
names still not present. -/
def fillLockV2 (data : Json) (acc : List (String × Json)) : List (String × Json) :=
  match objGet data "packages" with
  | some (.obj fields) => fields.foldl fillV2Step acc
  | _ => acc

/-- Steps 1–3 of `_scan_json_dependencies`: the merged `dependencies` dict. -/
def mergedDependencies (data : Json) : List (String × Json) :=
  fillLockV2 data (fillLockV1 data (manifestDeps data))

/-- Step 4, version extraction: a dict entry reads its `"version"` field
(`or ""`), any other entry is its own string; a falsy (empty/absent)
result skips the record (`if not version_raw: continue`). -/
def versionRaw (version_info : Json) : Option String :=
  match version_info with
  | .str s => if s = "" then none else some s
  | .obj fields =>
    match jget fields "version" with
    | some (.str s) => if s = "" then none else some s
    | _ => none
  | _ => none

/-- Python `re.sub(r'^[\^~>=<\s]*', '', version_raw)`. -/
def cleanVersionChars (xs : List Char) : List Char :=
  xs.dropWhile (fun c =>
    c = '^' || c = '~' || c = '>' || c = '=' || c = '<' || c.isWhitespace)

/-- `re.sub(r'^[\^~>=<\s]*', '', version_raw)` on `String`. -/
def cleanVersion (s : String) : String :=
  ⟨cleanVersionChars s.data⟩

/-- One emitted vulnerability record of the scanners. -/
structure Finding where
  package : String
  version : String
  clean_version : String
  severity : String
  cve_id : Option String
  description : Option String
  vulnerable_range : String
deriving DecidableEq, Repr

/-- The record appended for one matching rule. -/
def mkFinding (pkg ver clean : String) (v : Vuln) : Finding :=
  { package := pkg, version := ver, clean_version := clean,
    severity := v.severity, cve_id := v.cve_id,
    description := v.description, vulnerable_range := v.range }

/-- `GitHubHandler._scan_json_dependencies` on the decoded payload:
merge the dependency maps, then look every record up in the catalog.
`none` (malformed JSON) yields `[]` via the `json.JSONDecodeError`
handler. -/
def scan_json_dependencies (parsed : Option Json) (db : Catalog) : List Finding :=
  match parsed with
  | none => []
  | some data =>
    (mergedDependencies data).foldl
      (fun acc p =>
        match versionRaw p.2 with
        | none => acc
        | some vr =>
          let clean := cleanVersion vr
          acc ++ (is_vulnerable db p.1 clean).map (mkFinding p.1 vr clean))
      []

/-! ## `GitHubHandler._scan_yarn_lock`

Python `content.splitlines()` is modelled as splitting on `'\n'`; the
scanners below skip empty lines, so the extra empty group produced by a
trailing newline (which `splitlines` drops) contributes nothing. -/

/-- `content.splitlines()`. -/
def splitLines (content : String) : List (List Char) :=
  splitOnChar '\n' content.data

/-- Python `line.rstrip(':')`: drop every trailing colon. -/
def rstripColons (xs : List Char) : List Char :=
  (xs.reverse.dropWhile (fun c => c = ':')).reverse

/-- `package_info.split('@')[0]`. -/
def beforeFirstAt (xs : List Char) : List Char :=
  (splitOnChar '@' xs).headD []

/-- Skipped lines of the yarn.lock loop: `if line and not
line.startswith('#')` fails — blank or comment. -/
def yarnBlankLine (line : List Char) : Bool :=
  line.isEmpty || line.head? = some '#'

/-- The block-header test: `line.endswith(':') and '@' in line`. -/
def yarnHeaderLine (line : List Char) : Bool :=
  (line.getLast? = some ':') && line.any (fun c => c = '@')

/-- The version-line guard: `line.startswith('version') and
current_package` — the truthiness of `current_package` also rejects the
empty string. -/
def yarnVersionGuard (line pkg : List Char) : Bool :=
  "version".data.isPrefixOf line && !pkg.isEmpty

/-- The quoted capture: `line.split('"')[1] if '"' in line else None`. -/
def yarnQuoted (line : List Char) : Option (List Char) :=
  if line.any (fun c => c = '"') then (splitOnChar '"' line).get? 1 else none

/-- One iteration of the `_scan_yarn_lock` loop body on the state
`current_package` (`none` = Python `None`): the next state together with
the `(package, version)` pairs at which the source performs its catalog
lookup. -/
def yarnStep (cur : Option (List Char)) (raw : List Char) :
    Option (List Char) × List (List Char × List Char) :=
  let line := trimChars raw
  if yarnBlankLine line then (cur, [])
  else if yarnHeaderLine line then
    let package_info := rstripColons line
    (if package_info.any (fun c => c = '@') then some (beforeFirstAt package_info) else cur, [])
  else
    match cur with
    | some pkg =>
      if yarnVersionGuard line pkg then
        match yarnQuoted line with
        | some v => if v.isEmpty then (none, []) else (none, [(pkg, v)])
        | none => (none, [])
      else (cur, [])
    | none => (cur, [])

/-- The per-line loop of `_scan_yarn_lock`. -/
def yarnPairsGo (cur : Option (List Char)) : List (List Char) → List (List Char × List Char)
  | [] => []
  | raw :: rest => (yarnStep cur raw).2 ++ yarnPairsGo (yarnStep cur raw).1 rest

/-- The `(package, version)` pairs emitted by `_scan_yarn_lock`. -/
def yarnPairs (content : String) : List (List Char × List Char) :=
  yarnPairsGo none (splitLines content)

/-- `GitHubHandler._scan_yarn_lock`: the source queries the catalog at
each emission point and appends the resulting records, which is exactly
`flatMap` over the emitted pairs in order. -/
def scan_yarn_lock (db : Catalog) (content : String) : List Finding :=
  (yarnPairs content).flatMap
    (fun pv => (is_vulnerable db ⟨pv.1⟩ ⟨pv.2⟩).map (mkFinding ⟨pv.1⟩ ⟨pv.2⟩ ⟨pv.2⟩))

/-! ## `GitHubHandler._scan_pnpm_lock` -/

/-- The entry parse of one `"  /"` line inside the packages section:
`strip()`, `lstrip('/')`, require an `'@'`, split on every `'@'`, name =
part 0, version = part 1 up to its first `':'`. -/
def pnpmEntry (raw : List Char) : Option (List Char × List Char) :=
  let package_line := (trimChars raw).dropWhile (fun c => c = '/')
  if package_line.any (fun c => c = '@') then
    match splitOnChar '@' package_line with
    | p0 :: p1 :: _ =>
      let version := if p1.any (fun c => c = ':') then (splitOnChar ':' p1).headD [] else p1
      some (p0, version)
    | _ => none
  else none

/-- The per-line loop of `_scan_pnpm_lock`, carrying
`in_packages_section` (which the source never resets). -/
def pnpmPairsGo (inPkgs : Bool) : List (List Char) → List (List Char × List Char)
  | [] => []
  | raw :: rest =>
    if trimChars raw = "packages:".data then pnpmPairsGo true rest
    else if inPkgs && "  /".data.isPrefixOf raw then
      match pnpmEntry raw with
      | some pv => pv :: pnpmPairsGo inPkgs rest
      | none => pnpmPairsGo inPkgs rest
    else pnpmPairsGo inPkgs rest

/-- The `(package, version)` pairs emitted by `_scan_pnpm_lock`. -/
def pnpmPairs (content : String) : List (List Char × List Char) :=
  pnpmPairsGo false (splitLines content)

/-- `GitHubHandler._scan_pnpm_lock`: catalog lookup at each emission
point, as for yarn. -/
def scan_pnpm_lock (db : Catalog) (content : String) : List Finding :=
  (pnpmPairs content).flatMap
    (fun pv => (is_vulnerable db ⟨pv.1⟩ ⟨pv.2⟩).map (mkFinding ⟨pv.1⟩ ⟨pv.2⟩ ⟨pv.2⟩))

/-- `GitHubHandler._scan_dependency_file`: dispatch on the base file name;
the JSON-family branches consume the decoded payload (`parsed`), the
lock-file branches the raw text. -/
def scan_dependency_file (file_type : String) (parsed : Option Json) (content : String)
    (db : Catalog) : List Finding :=
  if file_type = "package.json" ∨ file_type = "package-lock.json" then
    scan_json_dependencies parsed db
  else if file_type = "yarn.lock" then scan_yarn_lock db content
  else if file_type = "pnpm-lock.yaml" then scan_pnpm_lock db content
  else []

/-! ## `GitPlatformHandler._make_request_with_retry`

The HTTP layer is external; one call is modelled by the classification of
each attempt's outcome (`outcomes n` is what attempt `n` would see) and
the helper's visible behaviour is its result plus the ordered list of
sleeps it performs. -/

/-- Classification of one attempt's outcome. -/
inductive HttpOutcome where
  | success
  | forbidden
  | unauthorized
  | otherStatus
  | netError
deriving DecidableEq, Repr

/-- One `time.sleep` performed by the helper. -/
inductive SleepEv where
  | rateDelay
  | ratePause
  | backoff (n : Nat)
deriving DecidableEq, Repr

/-- The `for attempt in range(retries)` loop; `fuel = retries - attempt`.
Returns the successful attempt's index (`response`) or `none`, with the
sleep trace: the unconditional rate-limit delay before every request, the
fixed 60-second pause after a 403, and `2 ** attempt` backoff after a
request exception on every attempt but the last. -/
def retryGo (outcomes : Nat → HttpOutcome) (retries : Nat) :
    Nat → Nat → Option Nat × List SleepEv
  | _, 0 => (none, [])
  | attempt, fuel + 1 =>
    match outcomes attempt with
    | .success => (some attempt, [.rateDelay])
    | .unauthorized => (none, [.rateDelay])
    | .forbidden =>
      let r := retryGo outcomes retries (attempt + 1) fuel
      (r.1, .rateDelay :: .ratePause :: r.2)
    | .otherStatus =>
      let r := retryGo outcomes retries (attempt + 1) fuel
      (r.1, .rateDelay :: r.2)
    | .netError =>
      let r := retryGo outcomes retries (attempt + 1) fuel
      if attempt < retries - 1 then (r.1, .rateDelay :: .backoff (2 ^ attempt) :: r.2)
      else (r.1, .rateDelay :: r.2)

/-- `GitPlatformHandler._make_request_with_retry`. -/
def make_request_with_retry (outcomes : Nat → HttpOutcome) (retries : Nat) :
    Option Nat × List SleepEv :=
  retryGo outcomes retries 0 retries


/-! ## The bootstrap-seeded catalog
(`VulnerabilityDatabase._load_builtin_vulnerabilities`) -/

/-- The built-in CVE rule dict, entries verbatim from the source. -/
def builtinCVE : Catalog := [
  ("braces", [
    { range := "<3.0.3", severity := "HIGH", cve_id := some "CVE-2024-4068",
      description := some "ReDoS vulnerability in braces package" }]),
  ("ws", [
    { range := ">=8.0.0 <8.17.1", severity := "HIGH", cve_id := some "CVE-2024-37890",
      description := some "Resource exhaustion / unhandled exception" },
    { range := ">=7.0.0 <7.4.6", severity := "HIGH", cve_id := some "CVE-2021-32640",
      description := some "ReDoS vulnerability in Sec-WebSocket-Protocol header parsing" },
    { range := ">=6.0.0 <6.2.2", severity := "HIGH", cve_id := some "CVE-2021-32640",
      description := some "ReDoS vulnerability in Sec-WebSocket-Protocol header parsing" }]),
  ("lodash", [
    { range := "<4.17.21", severity := "HIGH", cve_id := some "CVE-2021-23337",
      description := some "Command injection via template function" }]),
  ("minimist", [
    { range := "<1.2.6", severity := "HIGH", cve_id := some "CVE-2020-7598",
      description := some "Prototype pollution in minimist" }]),
  ("tar", [
    { range := "<4.4.15 || >=5.0.0 <5.0.7 || >=6.0.0 <6.1.2", severity := "HIGH",
      cve_id := some "CVE-2021-32804",
      description := some "Path traversal in tar archive extraction" }]),
  ("got", [
    { range := "<11.8.5", severity := "MEDIUM", cve_id := some "CVE-2022-33987",
      description := some "HTTP request smuggling in got" }])]

/-- The `SHAI_HULUD_CSV` rows of
`VulnerabilityDatabase._load_shai_hulud_malicious_packages`, one
`(Package, Version)` pair per CSV line (the data contains no quoting, so
`csv.DictReader` is the split at the single comma). -/
def shaiHuludRows : List (String × String) := [
  ("02-echo", "= 0.0.7"),
  ("@accordproject/concerto-analysis", "= 3.24.1"),
  ("@accordproject/concerto-linter", "= 3.24.1"),
  ("@accordproject/concerto-linter-default-ruleset", "= 3.24.1"),
  ("@accordproject/concerto-metamodel", "= 3.12.5"),
  ("@accordproject/concerto-types", "= 3.24.1"),
  ("@accordproject/markdown-it-cicero", "= 0.16.26"),
  ("@accordproject/template-engine", "= 2.7.2"),
  ("@actbase/css-to-react-native-transform", "= 1.0.3"),
  ("@actbase/native", "= 0.1.32"),
  ("@actbase/node-server", "= 1.1.19"),
  ("@actbase/react-absolute", "= 0.8.3"),
  ("@actbase/react-daum-postcode", "= 1.0.5"),
  ("@actbase/react-kakaosdk", "= 0.9.27"),
  ("@actbase/react-native-actionsheet", "= 1.0.3"),
  ("@actbase/react-native-devtools", "= 0.1.3"),
  ("@actbase/react-native-fast-image", "= 8.5.13"),
  ("@actbase/react-native-kakao-channel", "= 1.0.2"),
  ("@actbase/react-native-kakao-navi", "= 2.0.4"),
  ("@actbase/react-native-less-transformer", "= 1.0.6"),
  ("@actbase/react-native-naver-login", "= 1.0.1"),
  ("@actbase/react-native-simple-video", "= 1.0.13"),
  ("@actbase/react-native-tiktok", "= 1.1.3"),
  ("@afetcan/api", "= 0.0.13"),
  ("@afetcan/storage", "= 0.0.27"),
  ("@alaan/s2s-auth", "= 2.0.3"),
  ("@alexadark/amadeus-api", "= 1.0.4"),
  ("@alexadark/gatsby-theme-events", "= 1.0.1"),
  ("@alexadark/gatsby-theme-wordpress-blog", "= 2.0.1"),
  ("@alexadark/reusable-functions", "= 1.5.1"),
  ("@alexcolls/nuxt-socket.io", "= 0.0.7 || = 0.0.8"),
  ("@alexcolls/nuxt-ux", "= 0.6.1 || = 0.6.2"),
  ("@antstackio/eslint-config-antstack", "= 0.0.3"),
  ("@antstackio/express-graphql-proxy", "= 0.2.8"),
  ("@antstackio/graphql-body-parser", "= 0.1.1"),
  ("@antstackio/json-to-graphql", "= 1.0.3"),
  ("@antstackio/shelbysam", "= 1.1.7"),
  ("@aryanhussain/my-angular-lib", "= 0.0.23"),
  ("@asyncapi/avro-schema-parser", "= 3.0.25 || = 3.0.26"),
  ("@asyncapi/bundler", "= 0.6.5 || = 0.6.6"),
  ("@asyncapi/cli", "= 4.1.3 || = 4.1.2"),
  ("@asyncapi/converter", "= 1.6.3 || = 1.6.4"),
  ("@asyncapi/diff", "= 0.5.1 || = 0.5.2"),
  ("@asyncapi/dotnet-rabbitmq-template", "= 1.0.2 || = 1.0.1"),
  ("@asyncapi/edavisualiser", "= 1.2.2 || = 1.2.1"),
  ("@asyncapi/generator", "= 2.8.5 || = 2.8.6"),
  ("@asyncapi/generator-components", "= 0.3.2 || = 0.3.3"),
  ("@asyncapi/generator-helpers", "= 0.2.1 || = 0.2.2"),
  ("@asyncapi/generator-react-sdk", "= 1.1.5 || = 1.1.4"),
  ("@asyncapi/go-watermill-template", "= 0.2.77 || = 0.2.76"),
  ("@asyncapi/html-template", "= 3.3.2 || = 3.3.3"),
  ("@asyncapi/java-spring-cloud-stream-template", "= 0.13.5 || = 0.13.6"),
  ("@asyncapi/java-spring-template", "= 1.6.2 || = 1.6.1"),
  ("@asyncapi/java-template", "= 0.3.6 || = 0.3.5"),
  ("@asyncapi/keeper", "= 0.0.2 || = 0.0.3"),
  ("@asyncapi/markdown-template", "= 1.6.8 || = 1.6.9"),
  ("@asyncapi/modelina", "= 5.10.3 || = 5.10.2"),
  ("@asyncapi/modelina-cli", "= 5.10.3 || = 5.10.2"),
  ("@asyncapi/multi-parser", "= 2.2.1 || = 2.2.2"),
  ("@asyncapi/nodejs-template", "= 3.0.6 || = 3.0.5"),
  ("@asyncapi/nodejs-ws-template", "= 0.10.1 || = 0.10.2"),
  ("@asyncapi/nunjucks-filters", "= 2.1.1 || = 2.1.2"),
  ("@asyncapi/openapi-schema-parser", "= 3.0.25 || = 3.0.26"),
  ("@asyncapi/optimizer", "= 1.0.6 || = 1.0.5"),
  ("@asyncapi/parser", "= 3.4.1 || = 3.4.2"),
  ("@asyncapi/php-template", "= 0.1.1 || = 0.1.2"),
  ("@asyncapi/problem", "= 1.0.2 || = 1.0.1"),
  ("@asyncapi/protobuf-schema-parser", "= 3.5.2 || = 3.6.1 || = 3.5.3"),
  ("@asyncapi/python-paho-template", "= 0.2.15 || = 0.2.14"),
  ("@asyncapi/react-component", "= 2.6.7 || = 2.6.6"),
  ("@asyncapi/server-api", "= 0.16.24 || = 0.16.25"),
  ("@asyncapi/specs", "= 6.9.1 || = 6.10.1 || = 6.8.3 || = 6.8.2"),
  ("@asyncapi/studio", "= 1.0.3 || = 1.0.2"),
  ("@asyncapi/web-component", "= 2.6.7 || = 2.6.6"),
  ("@bdkinc/knex-ibmi", "= 0.5.7"),
  ("@browserbasehq/bb9", "= 1.2.21"),
  ("@browserbasehq/director-ai", "= 1.0.3"),
  ("@browserbasehq/mcp", "= 2.1.1"),
  ("@browserbasehq/mcp-server-browserbase", "= 2.4.2"),
  ("@browserbasehq/sdk-functions", "= 0.0.4"),
  ("@browserbasehq/stagehand", "= 3.0.4"),
  ("@browserbasehq/stagehand-docs", "= 1.0.1"),
  ("@caretive/caret-cli", "= 0.0.2"),
  ("@chtijs/eslint-config", "= 1.0.1"),
  ("@clausehq/flows-step-httprequest", "= 0.1.14"),
  ("@clausehq/flows-step-jsontoxml", "= 0.1.14"),
  ("@clausehq/flows-step-mqtt", "= 0.1.14"),
  ("@clausehq/flows-step-sendgridemail", "= 0.1.14"),
  ("@clausehq/flows-step-taskscreateurl", "= 0.1.14"),
  ("@cllbk/ghl", "= 1.3.1"),
  ("@commute/bloom", "= 1.0.3"),
  ("@commute/market-data", "= 1.0.2"),
  ("@commute/market-data-chartjs", "= 2.3.1"),
  ("@dev-blinq/ai-qa-logic", "= 1.0.19"),
  ("@dev-blinq/blinqioclient", "= 1.0.21"),
  ("@dev-blinq/cucumber-js", "= 1.0.131"),
  ("@dev-blinq/cucumber_client", "= 1.0.738"),
  ("@dev-blinq/ui-systems", "= 1.0.93"),
  ("@ensdomains/address-encoder", "= 1.1.5"),
  ("@ensdomains/blacklist", "= 1.0.1"),
  ("@ensdomains/buffer", "= 0.1.2"),
  ("@ensdomains/ccip-read-cf-worker", "= 0.0.4"),
  ("@ensdomains/ccip-read-dns-gateway", "= 0.1.1"),
  ("@ensdomains/ccip-read-router", "= 0.0.7"),
  ("@ensdomains/ccip-read-worker-viem", "= 0.0.4"),
  ("@ensdomains/content-hash", "= 3.0.1"),
  ("@ensdomains/curvearithmetics", "= 1.0.1"),
  ("@ensdomains/cypress-metamask", "= 1.2.1"),
  ("@ensdomains/dnsprovejs", "= 0.5.3"),
  ("@ensdomains/dnssec-oracle-anchors", "= 0.0.2"),
  ("@ensdomains/dnssecoraclejs", "= 0.2.9"),
  ("@ensdomains/durin", "= 0.1.2"),
  ("@ensdomains/durin-middleware", "= 0.0.2"),
  ("@ensdomains/ens-archived-contracts", "= 0.0.3"),
  ("@ensdomains/ens-avatar", "= 1.0.4"),
  ("@ensdomains/ens-contracts", "= 1.6.1"),
  ("@ensdomains/ens-test-env", "= 1.0.2"),
  ("@ensdomains/ens-validation", "= 0.1.1"),
  ("@ensdomains/ensjs", "= 4.0.3"),
  ("@ensdomains/ensjs-react", "= 0.0.5"),
  ("@ensdomains/eth-ens-namehash", "= 2.0.16"),
  ("@ensdomains/hackathon-registrar", "= 1.0.5"),
  ("@ensdomains/hardhat-chai-matchers-viem", "= 0.1.15"),
  ("@ensdomains/hardhat-toolbox-viem-extended", "= 0.0.6"),
  ("@ensdomains/mock", "= 2.1.52"),
  ("@ensdomains/name-wrapper", "= 1.0.1"),
  ("@ensdomains/offchain-resolver-contracts", "= 0.2.2"),
  ("@ensdomains/op-resolver-contracts", "= 0.0.2"),
  ("@ensdomains/react-ens-address", "= 0.0.32"),
  ("@ensdomains/renewal", "= 0.0.13"),
  ("@ensdomains/renewal-widget", "= 0.1.10"),
  ("@ensdomains/reverse-records", "= 1.0.1"),
  ("@ensdomains/server-analytics", "= 0.0.2"),
  ("@ensdomains/solsha1", "= 0.0.4"),
  ("@ensdomains/subdomain-registrar", "= 0.2.4"),
  ("@ensdomains/test-utils", "= 1.3.1"),
  ("@ensdomains/thorin", "= 0.6.51"),
  ("@ensdomains/ui", "= 3.4.6"),
  ("@ensdomains/unicode-confusables", "= 0.1.1"),
  ("@ensdomains/unruggable-gateways", "= 0.0.3"),
  ("@ensdomains/vite-plugin-i18next-loader", "= 4.0.4"),
  ("@ensdomains/web3modal", "= 1.10.2"),
  ("@everreal/react-charts", "= 2.0.2 || = 2.0.1"),
  ("@everreal/validate-esmoduleinterop-imports", "= 1.4.5 || = 1.4.4"),
  ("@everreal/web-analytics", "= 0.0.1 || = 0.0.2"),
  ("@faq-component/core", "= 0.0.4"),
  ("@faq-component/react", "= 1.0.1"),
  ("@fishingbooker/browser-sync-plugin", "= 1.0.5"),
  ("@fishingbooker/react-loader", "= 1.0.7"),
  ("@fishingbooker/react-pagination", "= 2.0.6"),
  ("@fishingbooker/react-raty", "= 2.0.1"),
  ("@fishingbooker/react-swiper", "= 0.1.5"),
  ("@hapheus/n8n-nodes-pgp", "= 1.5.1"),
  ("@hover-design/core", "= 0.0.1"),
  ("@hover-design/react", "= 0.2.1"),
  ("@huntersofbook/auth-vue", "= 0.4.2"),
  ("@huntersofbook/core", "= 0.5.1"),
  ("@huntersofbook/core-nuxt", "= 0.4.2"),
  ("@huntersofbook/form-naiveui", "= 0.5.1"),
  ("@huntersofbook/i18n", "= 0.8.2"),
  ("@huntersofbook/ui", "= 0.5.1"),
  ("@hyperlook/telemetry-sdk", "= 1.0.19"),
  ("@ifelsedeveloper/protocol-contracts-svm-idl", "= 0.1.2 || = 0.1.3"),
  ("@ifings/design-system", "= 4.9.2"),
  ("@ifings/metatron3", "= 0.1.5"),
  ("@jayeshsadhwani/telemetry-sdk", "= 1.0.14"),
  ("@kvytech/cli", "= 0.0.7"),
  ("@kvytech/components", "= 0.0.2"),
  ("@kvytech/habbit-e2e-test", "= 0.0.2"),
  ("@kvytech/medusa-plugin-announcement", "= 0.0.8"),
  ("@kvytech/medusa-plugin-management", "= 0.0.5"),
  ("@kvytech/medusa-plugin-newsletter", "= 0.0.5"),
  ("@kvytech/medusa-plugin-product-reviews", "= 0.0.9"),
  ("@kvytech/medusa-plugin-promotion", "= 0.0.2"),
  ("@kvytech/web", "= 0.0.2"),
  ("@lessondesk/api-client", "= 9.12.2 || = 9.12.3"),
  ("@lessondesk/babel-preset", "= 1.0.1"),
  ("@lessondesk/electron-group-api-client", "= 1.0.3"),
  ("@lessondesk/eslint-config", "= 1.4.2"),
  ("@lessondesk/material-icons", "= 1.0.3"),
  ("@lessondesk/react-table-context", "= 2.0.4"),
  ("@lessondesk/schoolbus", "= 5.2.2 || = 5.2.3"),
  ("@livecms/live-edit", "= 0.0.32"),
  ("@livecms/nuxt-live-edit", "= 1.9.2"),
  ("@lokeswari-satyanarayanan/rn-zustand-expo-template", "= 1.0.9"),
  ("@louisle2/core", "= 1.0.1"),
  ("@louisle2/cortex-js", "= 0.1.6"),
  ("@lpdjs/firestore-repo-service", "= 1.0.1"),
  ("@lui-ui/lui-nuxt", "= 0.1.1"),
  ("@lui-ui/lui-tailwindcss", "= 0.1.2"),
  ("@lui-ui/lui-vue", "= 1.0.13"),
  ("@markvivanco/app-version-checker", "= 1.0.2 || = 1.0.1"),
  ("@mcp-use/cli", "= 2.2.7 || = 2.2.6"),
  ("@mcp-use/inspector", "= 0.6.3 || = 0.6.2"),
  ("@mcp-use/mcp-use", "= 1.0.2 || = 1.0.1"),
  ("@micado-digital/stadtmarketing-kufstein-external", "= 1.9.1"),
  ("@mizzle-dev/orm", "= 0.0.2"),
  ("@mparpaillon/connector-parse", "= 1.0.1"),
  ("@mparpaillon/imagesloaded", "= 4.1.2"),
  ("@mparpaillon/page", "= 1.0.1"),
  ("@ntnx/passport-wso2", "= 0.0.3"),
  ("@ntnx/t", "= 0.0.101"),
  ("@oku-ui/accordion", "= 0.6.2"),
  ("@oku-ui/alert-dialog", "= 0.6.2"),
  ("@oku-ui/arrow", "= 0.6.2"),
  ("@oku-ui/aspect-ratio", "= 0.6.2"),
  ("@oku-ui/avatar", "= 0.6.2"),
  ("@oku-ui/checkbox", "= 0.6.3"),
  ("@oku-ui/collapsible", "= 0.6.2"),
  ("@oku-ui/collection", "= 0.6.2"),
  ("@oku-ui/dialog", "= 0.6.2"),
  ("@oku-ui/direction", "= 0.6.2"),
  ("@oku-ui/dismissable-layer", "= 0.6.2"),
  ("@oku-ui/focus-guards", "= 0.6.2"),
  ("@oku-ui/focus-scope", "= 0.6.2"),
  ("@oku-ui/hover-card", "= 0.6.2"),
  ("@oku-ui/label", "= 0.6.2"),
  ("@oku-ui/menu", "= 0.6.2"),
  ("@oku-ui/motion", "= 0.4.4"),
  ("@oku-ui/motion-nuxt", "= 0.2.2"),
  ("@oku-ui/popover", "= 0.6.2"),
  ("@oku-ui/popper", "= 0.6.2"),
  ("@oku-ui/portal", "= 0.6.2"),
  ("@oku-ui/presence", "= 0.6.2"),
  ("@oku-ui/primitive", "= 0.6.2"),
  ("@oku-ui/primitives", "= 0.7.9"),
  ("@oku-ui/primitives-nuxt", "= 0.3.1"),
  ("@oku-ui/progress", "= 0.6.2"),
  ("@oku-ui/provide", "= 0.6.2"),
  ("@oku-ui/radio-group", "= 0.6.2"),
  ("@oku-ui/roving-focus", "= 0.6.2"),
  ("@oku-ui/scroll-area", "= 0.6.2"),
  ("@oku-ui/separator", "= 0.6.2"),
  ("@oku-ui/slider", "= 0.6.2"),
  ("@oku-ui/slot", "= 0.6.2"),
  ("@oku-ui/switch", "= 0.6.2"),
  ("@oku-ui/tabs", "= 0.6.2"),
  ("@oku-ui/toast", "= 0.6.2"),
  ("@oku-ui/toggle", "= 0.6.2"),
  ("@oku-ui/toggle-group", "= 0.6.2"),
  ("@oku-ui/toolbar", "= 0.6.2"),
  ("@oku-ui/tooltip", "= 0.6.2"),
  ("@oku-ui/use-composable", "= 0.6.2"),
  ("@oku-ui/utils", "= 0.6.2"),
  ("@oku-ui/visually-hidden", "= 0.6.2"),
  ("@orbitgtbelgium/mapbox-gl-draw-cut-polygon-mode", "= 2.0.5"),
  ("@orbitgtbelgium/mapbox-gl-draw-scale-rotate-mode", "= 1.1.1"),
  ("@orbitgtbelgium/orbit-components", "= 1.2.9"),
  ("@orbitgtbelgium/time-slider", "= 1.0.187"),
  ("@osmanekrem/bmad", "= 1.0.6"),
  ("@osmanekrem/error-handler", "= 1.2.2"),
  ("@pergel/cli", "= 0.11.1"),
  ("@pergel/module-box", "= 0.6.1"),
  ("@pergel/module-graphql", "= 0.6.1"),
  ("@pergel/module-ui", "= 0.0.9"),
  ("@pergel/nuxt", "= 0.25.5"),
  ("@posthog/agent", "= 1.24.1"),
  ("@posthog/ai", "= 7.1.2"),
  ("@posthog/automatic-cohorts-plugin", "= 0.0.8"),
  ("@posthog/bitbucket-release-tracker", "= 0.0.8"),
  ("@posthog/cli", "= 0.5.15"),
  ("@posthog/clickhouse", "= 1.7.1"),
  ("@posthog/core", "= 1.5.6"),
  ("@posthog/currency-normalization-plugin", "= 0.0.8"),
  ("@posthog/customerio-plugin", "= 0.0.8"),
  ("@posthog/databricks-plugin", "= 0.0.8"),
  ("@posthog/drop-events-on-property-plugin", "= 0.0.8"),
  ("@posthog/event-sequence-timer-plugin", "= 0.0.8"),
  ("@posthog/filter-out-plugin", "= 0.0.8"),
  ("@posthog/first-time-event-tracker", "= 0.0.8"),
  ("@posthog/geoip-plugin", "= 0.0.8"),
  ("@posthog/github-release-tracking-plugin", "= 0.0.8"),
  ("@posthog/gitub-star-sync-plugin", "= 0.0.8"),
  ("@posthog/heartbeat-plugin", "= 0.0.8"),
  ("@posthog/hedgehog-mode", "= 0.0.42"),
  ("@posthog/icons", "= 0.36.1"),
  ("@posthog/ingestion-alert-plugin", "= 0.0.8"),
  ("@posthog/intercom-plugin", "= 0.0.8"),
  ("@posthog/kinesis-plugin", "= 0.0.8"),
  ("@posthog/laudspeaker-plugin", "= 0.0.8"),
  ("@posthog/lemon-ui", "= 0.0.1"),
  ("@posthog/maxmind-plugin", "= 0.1.6"),
  ("@posthog/migrator3000-plugin", "= 0.0.8"),
  ("@posthog/netdata-event-processing", "= 0.0.8"),
  ("@posthog/nextjs", "= 0.0.3"),
  ("@posthog/nextjs-config", "= 1.5.1"),
  ("@posthog/nuxt", "= 1.2.9"),
  ("@posthog/pagerduty-plugin", "= 0.0.8"),
  ("@posthog/piscina", "= 3.2.1"),
  ("@posthog/plugin-contrib", "= 0.0.6"),
  ("@posthog/plugin-server", "= 1.10.8"),
  ("@posthog/plugin-unduplicates", "= 0.0.8"),
  ("@posthog/postgres-plugin", "= 0.0.8"),
  ("@posthog/react-rrweb-player", "= 1.1.4"),
  ("@posthog/rrdom", "= 0.0.31"),
  ("@posthog/rrweb", "= 0.0.31"),
  ("@posthog/rrweb-player", "= 0.0.31"),
  ("@posthog/rrweb-record", "= 0.0.31"),
  ("@posthog/rrweb-replay", "= 0.0.19"),
  ("@posthog/rrweb-snapshot", "= 0.0.31"),
  ("@posthog/rrweb-utils", "= 0.0.31"),
  ("@posthog/sendgrid-plugin", "= 0.0.8"),
  ("@posthog/siphash", "= 1.1.2"),
  ("@posthog/snowflake-export-plugin", "= 0.0.8"),
  ("@posthog/taxonomy-plugin", "= 0.0.8"),
  ("@posthog/twilio-plugin", "= 0.0.8"),
  ("@posthog/twitter-followers-plugin", "= 0.0.8"),
  ("@posthog/url-normalizer-plugin", "= 0.0.8"),
  ("@posthog/variance-plugin", "= 0.0.8"),
  ("@posthog/web-dev-server", "= 1.0.5"),
  ("@posthog/wizard", "= 1.18.1"),
  ("@posthog/zendesk-plugin", "= 0.0.8"),
  ("@postman/aether-icons", "= 2.23.2 || = 2.23.3 || = 2.23.4"),
  ("@postman/csv-parse", "= 4.0.3 || = 4.0.5 || = 4.0.4"),
  ("@postman/final-node-keytar", "= 7.9.3 || = 7.9.1 || = 7.9.2"),
  ("@postman/mcp-ui-client", "= 5.5.2 || = 5.5.3 || = 5.5.1"),
  ("@postman/node-keytar", "= 7.9.4 || = 7.9.5 || = 7.9.6"),
  ("@postman/pm-bin-linux-x64", "= 1.24.3 || = 1.24.5 || = 1.24.4"),
  ("@postman/pm-bin-macos-arm64", "= 1.24.3 || = 1.24.5 || = 1.24.4"),
  ("@postman/pm-bin-macos-x64", "= 1.24.3 || = 1.24.5 || = 1.24.4"),
  ("@postman/pm-bin-windows-x64", "= 1.24.3 || = 1.24.5 || = 1.24.4"),
  ("@postman/postman-collection-fork", "= 4.3.3 || = 4.3.5 || = 4.3.4"),
  ("@postman/postman-mcp-cli", "= 1.0.4 || = 1.0.5 || = 1.0.3"),
  ("@postman/postman-mcp-server", "= 2.4.12 || = 2.4.10 || = 2.4.11"),
  ("@postman/pretty-ms", "= 6.1.2 || = 6.1.3 || = 6.1.1"),
  ("@postman/secret-scanner-wasm", "= 2.1.4 || = 2.1.3 || = 2.1.2"),
  ("@postman/tunnel-agent", "= 0.6.5 || = 0.6.7 || = 0.6.6"),
  ("@postman/wdio-allure-reporter", "= 0.0.7 || = 0.0.8 || = 0.0.9"),
  ("@postman/wdio-junit-reporter", "= 0.0.4 || = 0.0.5 || = 0.0.6"),
  ("@pradhumngautam/common-app", "= 1.0.2"),
  ("@productdevbook/animejs-vue", "= 0.2.1"),
  ("@productdevbook/auth", "= 0.2.2"),
  ("@productdevbook/chatwoot", "= 2.0.1"),
  ("@productdevbook/motion", "= 1.0.4"),
  ("@productdevbook/ts-i18n", "= 1.4.2"),
  ("@pruthvi21/use-debounce", "= 1.0.3"),
  ("@quick-start-soft/quick-document-translator", "= 1.4.2511142126"),
  ("@quick-start-soft/quick-git-clean-markdown", "= 1.4.2511142126"),
  ("@quick-start-soft/quick-markdown", "= 1.4.2511142126"),
  ("@quick-start-soft/quick-markdown-compose", "= 1.4.2506300029"),
  ("@quick-start-soft/quick-markdown-image", "= 1.4.2511142126"),
  ("@quick-start-soft/quick-markdown-print", "= 1.4.2511142126"),
  ("@quick-start-soft/quick-markdown-translator", "= 1.4.2509202331"),
  ("@quick-start-soft/quick-remove-image-background", "= 1.4.2511142126"),
  ("@quick-start-soft/quick-task-refine", "= 1.4.2511142126"),
  ("@relyt/claude-context-core", "= 0.1.1"),
  ("@relyt/claude-context-mcp", "= 0.1.1"),
  ("@relyt/mcp-server-relytone", "= 0.0.3"),
  ("@sameepsi/sor", "= 1.0.3"),
  ("@sameepsi/sor2", "= 2.0.2"),
  ("@seezo/sdr-mcp-server", "= 0.0.5"),
  ("@seung-ju/next", "= 0.0.2"),
  ("@seung-ju/openapi-generator", "= 0.0.4"),
  ("@seung-ju/react-hooks", "= 0.0.2"),
  ("@seung-ju/react-native-action-sheet", "= 0.2.1"),
  ("@silgi/better-auth", "= 0.8.1"),
  ("@silgi/drizzle", "= 0.8.4"),
  ("@silgi/ecosystem", "= 0.7.6"),
  ("@silgi/graphql", "= 0.7.15"),
  ("@silgi/module-builder", "= 0.8.8"),
  ("@silgi/openapi", "= 0.7.4"),
  ("@silgi/permission", "= 0.6.8"),
  ("@silgi/ratelimit", "= 0.2.1"),
  ("@silgi/scalar", "= 0.6.2"),
  ("@silgi/yoga", "= 0.7.1"),
  ("@sme-ui/aoma-vevasound-metadata-lib", "= 0.1.3"),
  ("@strapbuild/react-native-date-time-picker", "= 2.0.4"),
  ("@strapbuild/react-native-perspective-image-cropper", "= 0.4.15"),
  ("@strapbuild/react-native-perspective-image-cropper-2", "= 0.4.7"),
  ("@strapbuild/react-native-perspective-image-cropper-poojan31", "= 0.4.6"),
  ("@suraj_h/medium-common", "= 1.0.5"),
  ("@thedelta/eslint-config", "= 1.0.2"),
  ("@tiaanduplessis/json", "= 2.0.2 || = 2.0.3"),
  ("@tiaanduplessis/react-progressbar", "= 1.0.2 || = 1.0.1"),
  ("@trackstar/angular-trackstar-link", "= 1.0.2"),
  ("@trackstar/react-trackstar-link", "= 2.0.21"),
  ("@trackstar/react-trackstar-link-upgrade", "= 1.1.10"),
  ("@trackstar/test-angular-package", "= 0.0.9"),
  ("@trackstar/test-package", "= 1.1.5"),
  ("@trefox/sleekshop-js", "= 0.1.6"),
  ("@trigo/atrix", "= 7.0.1"),
  ("@trigo/atrix-acl", "= 4.0.2"),
  ("@trigo/atrix-elasticsearch", "= 2.0.1"),
  ("@trigo/atrix-mongoose", "= 1.0.2"),
  ("@trigo/atrix-orientdb", "= 1.0.2"),
  ("@trigo/atrix-postgres", "= 1.0.3"),
  ("@trigo/atrix-pubsub", "= 4.0.3"),
  ("@trigo/atrix-redis", "= 1.0.2"),
  ("@trigo/atrix-soap", "= 1.0.2"),
  ("@trigo/atrix-swagger", "= 3.0.1"),
  ("@trigo/bool-expressions", "= 4.1.3"),
  ("@trigo/eslint-config-trigo", "= 3.3.1"),
  ("@trigo/fsm", "= 3.4.2"),
  ("@trigo/hapi-auth-signedlink", "= 1.3.1"),
  ("@trigo/jsdt", "= 0.2.1"),
  ("@trigo/keycloak-api", "= 1.3.1"),
  ("@trigo/node-soap", "= 0.5.4"),
  ("@trigo/pathfinder-ui-css", "= 0.1.1"),
  ("@trigo/trigo-hapijs", "= 5.0.1"),
  ("@trpc-rate-limiter/cloudflare", "= 0.1.4"),
  ("@trpc-rate-limiter/hono", "= 0.1.4"),
  ("@varsityvibe/api-client", "= 1.3.36 || = 1.3.37"),
  ("@varsityvibe/utils", "= 5.0.6"),
  ("@varsityvibe/validation-schemas", "= 0.6.7 || = 0.6.8"),
  ("@viapip/eslint-config", "= 0.2.4"),
  ("@vishadtyagi/full-year-calendar", "= 0.1.11"),
  ("@voiceflow/alexa-types", "= 2.15.60 || = 2.15.61"),
  ("@voiceflow/anthropic", "= 0.4.4 || = 0.4.5"),
  ("@voiceflow/api-sdk", "= 3.28.59 || = 3.28.58"),
  ("@voiceflow/backend-utils", "= 5.0.1 || = 5.0.2"),
  ("@voiceflow/base-types", "= 2.136.3 || = 2.136.2"),
  ("@voiceflow/body-parser", "= 1.21.3 || = 1.21.2"),
  ("@voiceflow/chat-types", "= 2.14.59 || = 2.14.58"),
  ("@voiceflow/circleci-config-sdk-orb-import", "= 0.2.1 || = 0.2.2"),
  ("@voiceflow/commitlint-config", "= 2.6.2 || = 2.6.1"),
  ("@voiceflow/common", "= 8.9.1 || = 8.9.2"),
  ("@voiceflow/default-prompt-wrappers", "= 1.7.4 || = 1.7.3"),
  ("@voiceflow/dependency-cruiser-config", "= 1.8.11 || = 1.8.12"),
  ("@voiceflow/dtos-interact", "= 1.40.2 || = 1.40.1"),
  ("@voiceflow/encryption", "= 0.3.2 || = 0.3.3"),
  ("@voiceflow/eslint-config", "= 7.16.4 || = 7.16.5"),
  ("@voiceflow/eslint-plugin", "= 1.6.2 || = 1.6.1"),
  ("@voiceflow/exception", "= 1.10.1 || = 1.10.2"),
  ("@voiceflow/fetch", "= 1.11.1 || = 1.11.2"),
  ("@voiceflow/general-types", "= 3.2.22 || = 3.2.23"),
  ("@voiceflow/git-branch-check", "= 1.4.3 || = 1.4.4"),
  ("@voiceflow/google-dfes-types", "= 2.17.12 || = 2.17.13"),
  ("@voiceflow/google-types", "= 2.21.12 || = 2.21.13"),
  ("@voiceflow/husky-config", "= 1.3.2 || = 1.3.1"),
  ("@voiceflow/logger", "= 2.4.3 || = 2.4.2"),
  ("@voiceflow/metrics", "= 1.5.2 || = 1.5.1"),
  ("@voiceflow/natural-language-commander", "= 0.5.2 || = 0.5.3"),
  ("@voiceflow/nestjs-common", "= 2.75.3 || = 2.75.2"),
  ("@voiceflow/nestjs-mongodb", "= 1.3.2 || = 1.3.1"),
  ("@voiceflow/nestjs-rate-limit", "= 1.3.2 || = 1.3.3"),
  ("@voiceflow/nestjs-redis", "= 1.3.2 || = 1.3.1"),
  ("@voiceflow/nestjs-timeout", "= 1.3.2 || = 1.3.1"),
  ("@voiceflow/npm-package-json-lint-config", "= 1.1.2 || = 1.1.1"),
  ("@voiceflow/openai", "= 3.2.3 || = 3.2.2"),
  ("@voiceflow/pino", "= 6.11.4 || = 6.11.3"),
  ("@voiceflow/pino-pretty", "= 4.4.1 || = 4.4.2"),
  ("@voiceflow/prettier-config", "= 1.10.1 || = 1.10.2"),
  ("@voiceflow/react-chat", "= 1.65.3 || = 1.65.4"),
  ("@voiceflow/runtime", "= 1.29.2 || = 1.29.1"),
  ("@voiceflow/runtime-client-js", "= 1.17.2 || = 1.17.3"),
  ("@voiceflow/sdk-runtime", "= 1.43.2 || = 1.43.1"),
  ("@voiceflow/secrets-provider", "= 1.9.2 || = 1.9.3"),
  ("@voiceflow/semantic-release-config", "= 1.4.2 || = 1.4.1"),
  ("@voiceflow/serverless-plugin-typescript", "= 2.1.8 || = 2.1.7"),
  ("@voiceflow/slate-serializer", "= 1.7.4 || = 1.7.3"),
  ("@voiceflow/stitches-react", "= 2.3.3 || = 2.3.2"),
  ("@voiceflow/storybook-config", "= 1.2.3 || = 1.2.2"),
  ("@voiceflow/stylelint-config", "= 1.1.2 || = 1.1.1"),
  ("@voiceflow/test-common", "= 2.1.1 || = 2.1.2"),
  ("@voiceflow/tsconfig", "= 1.12.1 || = 1.12.2"),
  ("@voiceflow/tsconfig-paths", "= 1.1.5 || = 1.1.4"),
  ("@voiceflow/utils-designer", "= 1.74.20 || = 1.74.19"),
  ("@voiceflow/verror", "= 1.1.5 || = 1.1.4"),
  ("@voiceflow/vite-config", "= 2.6.2 || = 2.6.3"),
  ("@voiceflow/vitest-config", "= 1.10.3 || = 1.10.2"),
  ("@voiceflow/voice-types", "= 2.10.58 || = 2.10.59"),
  ("@voiceflow/voiceflow-types", "= 3.32.45 || = 3.32.46"),
  ("@voiceflow/widget", "= 1.7.18 || = 1.7.19"),
  ("@vucod/email", "= 0.0.3"),
  ("@zapier/ai-actions", "= 0.1.18 || = 0.1.19 || = 0.1.20"),
  ("@zapier/ai-actions-react", "= 0.1.13 || = 0.1.12 || = 0.1.14"),
  ("@zapier/babel-preset-zapier", "= 6.4.2 || = 6.4.1 || = 6.4.3"),
  ("@zapier/browserslist-config-zapier", "= 1.0.4 || = 1.0.5 || = 1.0.3"),
  ("@zapier/eslint-plugin-zapier", "= 11.0.5 || = 11.0.3 || = 11.0.4"),
  ("@zapier/mcp-integration", "= 3.0.3 || = 3.0.1 || = 3.0.2"),
  ("@zapier/secret-scrubber", "= 1.1.5 || = 1.1.3 || = 1.1.4"),
  ("@zapier/spectral-api-ruleset", "= 1.9.3 || = 1.9.2 || = 1.9.1"),
  ("@zapier/stubtree", "= 0.1.4 || = 0.1.3 || = 0.1.2"),
  ("@zapier/zapier-sdk", "= 0.15.7 || = 0.15.6 || = 0.15.5"),
  ("ai-crowl-shield", "= 1.0.7"),
  ("arc-cli-fc", "= 1.0.1"),
  ("asciitranslator", "= 1.0.3"),
  ("asyncapi-preview", "= 1.0.2 || = 1.0.1"),
  ("atrix", "= 1.0.1"),
  ("atrix-mongoose", "= 1.0.1"),
  ("automation_model", "= 1.0.491"),
  ("avvvatars-vue", "= 1.1.2"),
  ("axios-builder", "= 1.2.1"),
  ("axios-cancelable", "= 1.0.2 || = 1.0.1"),
  ("axios-timed", "= 1.0.2 || = 1.0.1"),
  ("babel-preset-kinvey-flex-service", "= 0.1.1"),
  ("barebones-css", "= 1.1.3 || = 1.1.4"),
  ("benmostyn-frame-print", "= 1.0.1"),
  ("best_gpio_controller", "= 1.0.10"),
  ("better-auth-nuxt", "= 0.0.10"),
  ("better-queue-nedb", "= 0.1.5"),
  ("bidirectional-adapter", "= 1.2.3 || = 1.2.2 || = 1.2.5 || = 1.2.4"),
  ("blinqio-executions-cli", "= 1.0.41"),
  ("blob-to-base64", "= 1.0.3"),
  ("bool-expressions", "= 0.1.2"),
  ("buffered-interpolation-babylon6", "= 0.2.8"),
  ("bun-plugin-httpfile", "= 0.1.1"),
  ("bytecode-checker-cli", "= 1.0.10 || = 1.0.9 || = 1.0.8 || = 1.0.11"),
  ("bytes-to-x", "= 1.0.1"),
  ("calc-loan-interest", "= 1.0.4"),
  ("capacitor-plugin-apptrackingios", "= 0.0.21"),
  ("capacitor-plugin-purchase", "= 0.1.1"),
  ("capacitor-plugin-scgssigninwithgoogle", "= 0.0.5"),
  ("capacitor-purchase-history", "= 0.0.10"),
  ("capacitor-voice-recorder-wav", "= 6.0.3"),
  ("ceviz", "= 0.0.5"),
  ("chrome-extension-downloads", "= 0.0.3 || = 0.0.4"),
  ("claude-token-updater", "= 1.0.3"),
  ("coinmarketcap-api", "= 3.1.3 || = 3.1.2"),
  ("colors-regex", "= 2.0.1"),
  ("command-irail", "= 0.5.4"),
  ("compare-obj", "= 1.1.2 || = 1.1.1"),
  ("composite-reducer", "= 1.0.4 || = 1.0.5 || = 1.0.2 || = 1.0.3"),
  ("count-it-down", "= 1.0.2 || = 1.0.1"),
  ("cpu-instructions", "= 0.0.14"),
  ("create-director-app", "= 0.1.1"),
  ("create-glee-app", "= 0.2.3 || = 0.2.2"),
  ("create-hardhat3-app", "= 1.1.2 || = 1.1.3 || = 1.1.1 || = 1.1.4"),
  ("create-kinvey-flex-service", "= 0.2.1"),
  ("create-mcp-use-app", "= 0.5.4 || = 0.5.3"),
  ("create-silgi", "= 0.3.1"),
  ("crypto-addr-codec", "= 0.1.9"),
  ("css-dedoupe", "= 0.1.2"),
  ("csv-tool-cli", "= 1.2.1"),
  ("dashboard-empty-state", "= 1.0.3"),
  ("designstudiouiux", "= 1.0.1"),
  ("devstart-cli", "= 1.0.6"),
  ("dialogflow-es", "= 1.1.2 || = 1.1.3 || = 1.1.1 || = 1.1.4"),
  ("discord-bot-server", "= 0.1.2"),
  ("docusaurus-plugin-vanilla-extract", "= 1.0.3"),
  ("dont-go", "= 1.1.2"),
  ("dotnet-template", "= 0.0.3 || = 0.0.4"),
  ("drop-events-on-property-plugin", "= 0.0.2"),
  ("easypanel-sdk", "= 0.3.2"),
  ("electron-volt", "= 0.0.2"),
  ("email-deliverability-tester", "= 1.1.1"),
  ("enforce-branch-name", "= 1.1.3"),
  ("esbuild-plugin-brotli", "= 0.2.1"),
  ("esbuild-plugin-eta", "= 0.1.1"),
  ("esbuild-plugin-httpfile", "= 0.4.1"),
  ("eslint-config-kinvey-flex-service", "= 0.1.1"),
  ("eslint-config-nitpicky", "= 4.0.1"),
  ("eslint-config-trigo", "= 22.0.2"),
  ("eslint-config-zeallat-base", "= 1.0.4"),
  ("ethereum-ens", "= 0.8.1"),
  ("evm-checkcode-cli", "= 1.0.14 || = 1.0.12 || = 1.0.15 || = 1.0.13"),
  ("exact-ticker", "= 0.3.5"),
  ("expo-audio-session", "= 0.2.1"),
  ("expo-router-on-rails", "= 0.0.4"),
  ("express-starter-template", "= 1.0.10"),
  ("expressos", "= 1.1.3"),
  ("fat-fingered", "= 1.0.2 || = 1.0.1"),
  ("feature-flip", "= 1.0.2 || = 1.0.1"),
  ("firestore-search-engine", "= 1.2.3"),
  ("fittxt", "= 1.0.3 || = 1.0.2"),
  ("flapstacks", "= 1.0.2 || = 1.0.1"),
  ("flatten-unflatten", "= 1.0.2 || = 1.0.1"),
  ("formik-error-focus", "= 2.0.1"),
  ("formik-store", "= 1.0.1"),
  ("frontity-starter-theme", "= 1.0.1"),
  ("fuzzy-finder", "= 1.0.6 || = 1.0.5"),
  ("gate-evm-check-code2", "= 2.0.6 || = 2.0.5 || = 2.0.4 || = 2.0.3"),
  ("gate-evm-tools-test", "= 1.0.6 || = 1.0.5 || = 1.0.8 || = 1.0.7"),
  ("gatsby-plugin-antd", "= 2.2.1"),
  ("gatsby-plugin-cname", "= 1.0.2 || = 1.0.1"),
  ("generator-meteor-stock", "= 0.1.6"),
  ("generator-ng-itobuz", "= 0.0.15"),
  ("get-them-args", "= 1.3.3"),
  ("github-action-for-generator", "= 2.1.27 || = 2.1.28"),
  ("gitsafe", "= 1.0.5"),
  ("go-template", "= 0.1.9 || = 0.1.8"),
  ("gulp-inject-envs", "= 1.2.2 || = 1.2.1"),
  ("haufe-axera-api-client", "= 0.0.1 || = 0.0.2"),
  ("hope-mapboxdraw", "= 0.1.1"),
  ("hopedraw", "= 1.0.3"),
  ("hover-design-prototype", "= 0.0.5"),
  ("httpness", "= 1.0.3 || = 1.0.2"),
  ("hyper-fullfacing", "= 1.0.3"),
  ("hyperterm-hipster", "= 1.0.7"),
  ("ids-css", "= 1.5.1"),
  ("ids-enterprise-mcp-server", "= 0.0.2"),
  ("ids-enterprise-ng", "= 20.1.6"),
  ("ids-enterprise-typings", "= 20.1.6"),
  ("image-to-uri", "= 1.0.2 || = 1.0.1"),
  ("insomnia-plugin-random-pick", "= 1.0.4"),
  ("invo", "= 0.2.2"),
  ("iron-shield-miniapp", "= 0.0.2"),
  ("ito-button", "= 8.0.3"),
  ("itobuz-angular", "= 0.0.1"),
  ("itobuz-angular-auth", "= 8.0.11"),
  ("itobuz-angular-button", "= 8.0.11"),
  ("jacob-zuma", "= 1.0.2 || = 1.0.1"),
  ("jaetut-varit-test", "= 1.0.2"),
  ("jan-browser", "= 0.13.1"),
  ("jquery-bindings", "= 1.1.2 || = 1.1.3"),
  ("jsonsurge", "= 1.0.7"),
  ("just-toasty", "= 1.7.1"),
  ("kill-port", "= 2.0.2 || = 2.0.3"),
  ("kinetix-default-token-list", "= 1.0.5"),
  ("kinvey-cli-wrapper", "= 0.3.1"),
  ("kinvey-flex-scripts", "= 0.5.1"),
  ("kns-error-code", "= 1.0.8"),
  ("korea-administrative-area-geo-json-util", "= 1.0.7"),
  ("kwami", "= 1.5.9 || = 1.5.10"),
  ("lang-codes", "= 1.0.2 || = 1.0.1"),
  ("license-o-matic", "= 1.2.2 || = 1.2.1"),
  ("lint-staged-imagemin", "= 1.3.2 || = 1.3.1"),
  ("lite-serper-mcp-server", "= 0.2.2"),
  ("lui-vue-test", "= 0.70.9"),
  ("luno-api", "= 1.2.3"),
  ("m25-transaction-utils", "= 1.1.16"),
  ("manual-billing-system-miniapp-api", "= 1.3.1"),
  ("mcp-use", "= 1.4.2 || = 1.4.3"),
  ("medusa-plugin-announcement", "= 0.0.3"),
  ("medusa-plugin-logs", "= 0.0.17"),
  ("medusa-plugin-momo", "= 0.0.68"),
  ("medusa-plugin-product-reviews-kvy", "= 0.0.4"),
  ("medusa-plugin-zalopay", "= 0.0.40"),
  ("mod10-check-digit", "= 1.0.1"),
  ("mon-package-react-typescript", "= 1.0.1"),
  ("my-saeed-lib", "= 0.1.1"),
  ("n8n-nodes-tmdb", "= 0.5.1"),
  ("n8n-nodes-vercel-ai-sdk", "= 0.1.7"),
  ("n8n-nodes-viral-app", "= 0.2.5"),
  ("nanoreset", "= 7.0.2 || = 7.0.1"),
  ("next-circular-dependency", "= 1.0.3 || = 1.0.2"),
  ("next-simple-google-analytics", "= 1.1.2 || = 1.1.1"),
  ("next-styled-nprogress", "= 1.0.4 || = 1.0.5"),
  ("ngx-useful-swiper-prosenjit", "= 9.0.2"),
  ("ngx-wooapi", "= 12.0.1"),
  ("nitro-graphql", "= 1.5.12"),
  ("nitro-kutu", "= 0.1.1"),
  ("nitrodeploy", "= 1.0.8"),
  ("nitroping", "= 0.1.1"),
  ("normal-store", "= 1.3.2 || = 1.3.4 || = 1.3.1 || = 1.3.3"),
  ("nuxt-keycloak", "= 0.2.2"),
  ("obj-to-css", "= 1.0.3 || = 1.0.2"),
  ("okta-react-router-6", "= 5.0.1"),
  ("open2internet", "= 0.1.1"),
  ("orbit-boxicons", "= 2.1.3"),
  ("orbit-nebula-draw-tools", "= 1.0.10"),
  ("orbit-nebula-editor", "= 1.0.2"),
  ("orbit-soap", "= 0.43.13"),
  ("orchestrix", "= 12.1.2"),
  ("package-tester", "= 1.0.1"),
  ("parcel-plugin-asset-copier", "= 1.1.2 || = 1.1.3"),
  ("pdf-annotation", "= 0.0.2"),
  ("pergel", "= 0.13.2"),
  ("pergeltest", "= 0.0.25"),
  ("piclite", "= 1.0.1"),
  ("pico-uid", "= 1.0.4 || = 1.0.3"),
  ("pkg-readme", "= 1.1.1"),
  ("poper-react-sdk", "= 0.1.2"),
  ("posthog-docusaurus", "= 2.0.6"),
  ("posthog-js", "= 1.297.3"),
  ("posthog-node", "= 5.13.3 || = 5.11.3 || = 4.18.1"),
  ("posthog-plugin-hello-world", "= 1.0.1"),
  ("posthog-react-native", "= 4.11.1 || = 4.12.5"),
  ("posthog-react-native-session-replay", "= 1.2.2"),
  ("prime-one-table", "= 0.0.19"),
  ("prompt-eng", "= 1.0.50"),
  ("prompt-eng-server", "= 1.0.18"),
  ("puny-req", "= 1.0.3"),
  ("quickswap-ads-list", "= 1.0.33"),
  ("quickswap-default-staking-list", "= 1.0.11"),
  ("quickswap-default-staking-list-address", "= 1.0.55"),
  ("quickswap-default-token-list", "= 1.5.16"),
  ("quickswap-router-sdk", "= 1.0.1"),
  ("quickswap-sdk", "= 3.0.44"),
  ("quickswap-smart-order-router", "= 1.0.1"),
  ("quickswap-token-lists", "= 1.0.3"),
  ("quickswap-v2-sdk", "= 2.0.1"),
  ("ra-auth-firebase", "= 1.0.3"),
  ("ra-data-firebase", "= 1.0.8 || = 1.0.7"),
  ("react-component-taggers", "= 0.1.9"),
  ("react-data-to-export", "= 1.0.1"),
  ("react-element-prompt-inspector", "= 0.1.18"),
  ("react-favic", "= 1.0.2"),
  ("react-hook-form-persist", "= 3.0.1 || = 3.0.2"),
  ("react-jam-icons", "= 1.0.2 || = 1.0.1"),
  ("react-keycloak-context", "= 1.0.9 || = 1.0.8"),
  ("react-library-setup", "= 0.0.6"),
  ("react-linear-loader", "= 1.0.2"),
  ("react-micromodal.js", "= 1.0.2 || = 1.0.1"),
  ("react-native-datepicker-modal", "= 1.3.2 || = 1.3.1"),
  ("react-native-email", "= 2.1.1 || = 2.1.2"),
  ("react-native-fetch", "= 2.0.2 || = 2.0.1"),
  ("react-native-get-pixel-dimensions", "= 1.0.2 || = 1.0.1"),
  ("react-native-google-maps-directions", "= 2.1.2"),
  ("react-native-jam-icons", "= 1.0.2 || = 1.0.1"),
  ("react-native-log-level", "= 1.2.2 || = 1.2.1"),
  ("react-native-modest-checkbox", "= 3.3.1"),
  ("react-native-modest-storage", "= 2.1.1"),
  ("react-native-phone-call", "= 1.2.2 || = 1.2.1"),
  ("react-native-retriable-fetch", "= 2.0.2 || = 2.0.1"),
  ("react-native-use-modal", "= 1.0.3"),
  ("react-native-view-finder", "= 1.2.2 || = 1.2.1"),
  ("react-native-websocket", "= 1.0.4 || = 1.0.3"),
  ("react-native-worklet-functions", "= 3.3.3"),
  ("react-packery-component", "= 1.0.3"),
  ("react-qr-image", "= 1.1.1"),
  ("react-scrambled-text", "= 1.0.4"),
  ("rediff", "= 1.0.5"),
  ("rediff-viewer", "= 0.0.7"),
  ("redux-forge", "= 2.5.3"),
  ("redux-router-kit", "= 1.2.3 || = 1.2.2 || = 1.2.4"),
  ("revenuecat", "= 1.0.1"),
  ("rollup-plugin-httpfile", "= 0.2.1"),
  ("sa-company-registration-number-regex", "= 1.0.2 || = 1.0.1"),
  ("sa-id-gen", "= 1.0.4 || = 1.0.5"),
  ("samesame", "= 1.0.3"),
  ("scgs-capacitor-subscribe", "= 1.0.11"),
  ("scgsffcreator", "= 1.0.5"),
  ("schob", "= 1.0.3"),
  ("selenium-session", "= 1.0.5"),
  ("selenium-session-client", "= 1.0.4"),
  ("set-nested-prop", "= 2.0.2 || = 2.0.1"),
  ("shelf-jwt-sessions", "= 0.1.2"),
  ("shell-exec", "= 1.1.3 || = 1.1.4"),
  ("shinhan-limit-scrap", "= 1.0.3"),
  ("silgi", "= 0.43.30"),
  ("simplejsonform", "= 1.0.1"),
  ("skills-use", "= 0.1.1 || = 0.1.2"),
  ("solomon-api-stories", "= 1.0.2"),
  ("solomon-v3-stories", "= 1.15.6"),
  ("solomon-v3-ui-wrapper", "= 1.6.1"),
  ("soneium-acs", "= 1.0.1"),
  ("sort-by-distance", "= 2.0.1"),
  ("south-african-id-info", "= 1.0.2"),
  ("stat-fns", "= 1.0.1"),
  ("stoor", "= 2.3.2"),
  ("sufetch", "= 0.4.1"),
  ("super-commit", "= 1.0.1"),
  ("svelte-autocomplete-select", "= 1.1.1"),
  ("svelte-toasty", "= 1.1.2 || = 1.1.3"),
  ("tanstack-shadcn-table", "= 1.1.5"),
  ("tavily-module", "= 1.0.1"),
  ("tcsp", "= 2.0.2"),
  ("tcsp-draw-test", "= 1.0.5"),
  ("tcsp-test-vd", "= 2.4.4"),
  ("template-lib", "= 1.1.3 || = 1.1.4"),
  ("template-micro-service", "= 1.0.3 || = 1.0.2"),
  ("tenacious-fetch", "= 2.3.3 || = 2.3.2"),
  ("test-foundry-app", "= 1.0.4 || = 1.0.3 || = 1.0.2 || = 1.0.1"),
  ("test-hardhat-app", "= 1.0.4 || = 1.0.3 || = 1.0.2 || = 1.0.1"),
  ("test23112222-api", "= 1.0.1"),
  ("tiaan", "= 1.0.2"),
  ("tiptap-shadcn-vue", "= 0.2.1"),
  ("token.js-fork", "= 0.7.32"),
  ("toonfetch", "= 0.3.2"),
  ("trigo-react-app", "= 4.1.2"),
  ("ts-relay-cursor-paging", "= 2.1.1"),
  ("typeface-antonio-complete", "= 1.0.5"),
  ("typefence", "= 1.2.3 || = 1.2.2"),
  ("typeorm-orbit", "= 0.2.27"),
  ("unadapter", "= 0.1.3"),
  ("undefsafe-typed", "= 1.0.4 || = 1.0.3"),
  ("unemail", "= 0.3.1"),
  ("uniswap-router-sdk", "= 1.6.2"),
  ("uniswap-smart-order-router", "= 3.16.26"),
  ("uniswap-test-sdk-core", "= 4.0.8"),
  ("unsearch", "= 0.0.3"),
  ("uplandui", "= 0.5.4"),
  ("upload-to-play-store", "= 1.0.2 || = 1.0.1"),
  ("url-encode-decode", "= 1.0.2 || = 1.0.1"),
  ("use-unsaved-changes", "= 1.0.9"),
  ("v-plausible", "= 1.2.1"),
  ("valid-south-african-id", "= 1.0.3"),
  ("valuedex-sdk", "= 3.0.5"),
  ("vf-oss-template", "= 1.0.4 || = 1.0.3 || = 1.0.2 || = 1.0.1"),
  ("victoria-wallet-constants", "= 0.1.1 || = 0.1.2"),
  ("victoria-wallet-core", "= 0.1.1 || = 0.1.2"),
  ("victoria-wallet-type", "= 0.1.1 || = 0.1.2"),
  ("victoria-wallet-utils", "= 0.1.1 || = 0.1.2"),
  ("victoria-wallet-validator", "= 0.1.1 || = 0.1.2"),
  ("victoriaxoaquyet-wallet-core", "= 0.2.1 || = 0.2.2"),
  ("vite-plugin-httpfile", "= 0.2.1"),
  ("vue-browserupdate-nuxt", "= 1.0.5"),
  ("wallet-evm", "= 0.3.2 || = 0.3.1"),
  ("wallet-type", "= 0.1.1 || = 0.1.2"),
  ("web-scraper-mcp", "= 1.1.4"),
  ("web-types-htmx", "= 0.1.1"),
  ("web-types-lit", "= 0.1.1"),
  ("webpack-loader-httpfile", "= 0.2.1"),
  ("wellness-expert-ng-gallery", "= 5.1.1"),
  ("wenk", "= 1.0.10 || = 1.0.9"),
  ("zapier-async-storage", "= 1.0.3 || = 1.0.2 || = 1.0.1"),
  ("zapier-platform-cli", "= 18.0.4 || = 18.0.3 || = 18.0.2"),
  ("zapier-platform-core", "= 18.0.4 || = 18.0.3 || = 18.0.2"),
  ("zapier-platform-legacy-scripting-runner", "= 4.0.3 || = 4.0.2 || = 4.0.4"),
  ("zapier-platform-schema", "= 18.0.4 || = 18.0.3 || = 18.0.2"),
  ("zapier-scripts", "= 7.8.4 || = 7.8.3"),
  ("zuper-cli", "= 1.0.1"),
  ("zuper-sdk", "= 1.0.57"),
  ("zuper-stream", "= 2.0.9")
]

/-- The rule built for one malicious-package row (after
`version_expr_raw.replace(" ", "")`). -/
def shaiEntry (expr : String) : Vuln :=
  { range := expr, severity := "HIGH",
    cve_id := some "MALICIOUS-PACKAGE-SHAI-HULUD-2",
    description := some "Package reported as malicious in the shai-hulud-2 npm compromise list" }

/-- Python `builtin_vulns[pkg].append(vuln_entry)` with creation of a
missing key: append to the existing rule list, else add a new key. -/
def catAppend (db : Catalog) (pkg : String) (v : Vuln) : Catalog :=
  if db.any (fun e => e.1 = pkg) then
    db.map (fun e => if e.1 = pkg then (e.1, e.2 ++ [v]) else e)
  else db ++ [(pkg, [v])]

/-- One iteration of the `_load_shai_hulud_malicious_packages` row loop:
strip both fields, skip falsy ones, delete every space of the version
expression and append the malicious-package rule. -/
def shaiStep (acc : Catalog) (row : String × String) : Catalog :=
  let pkg : String := ⟨trimChars row.1.data⟩
  let expr : String := ⟨trimChars row.2.data⟩
  if pkg = "" || expr = "" then acc
  else catAppend acc pkg (shaiEntry ⟨expr.data.filter (fun c => !(c = ' '))⟩)

/-- `VulnerabilityDatabase._load_shai_hulud_malicious_packages`. -/
def loadShaiHulud (db : Catalog) : Catalog :=
  shaiHuludRows.foldl shaiStep db

/-- The bootstrap-seeded in-memory catalog
(`_load_builtin_vulnerabilities`): the CVE dict extended with the
shai-hulud-2 malicious packages. -/
def builtinCatalog : Catalog := loadShaiHulud builtinCVE

/-! ## Spec-side reference definitions

Used on the specification side of refinement statements; they follow the
spec's words, to be compared with the source-derived scanners above. -/

/-- The field list of one manifest-level dependency group (empty when the
key is absent or not an object). -/
def groupFields (data : Json) (key : String) : List (String × Json) :=
  match objGet data key with
  | some (.obj fields) => fields
  | _ => []

/-- The two states of the yarn.lock scan, from the spec's design note:
`seekingPackage` (no block open) and `seekingVersion` (a block is open and
carries its extracted package name). -/
inductive YarnState where
  | seekingPackage
  | seekingVersion (name : List Char)

/-- Modelled from the spec: one transition of the two-state yarn.lock
scan.  A non-comment line ending in `':'` and containing `'@'` opens a
package block named by the substring before the first `'@'` (trailing
colons stripped); inside a block with a non-empty name, the first line
beginning with `version` resets the state and emits the pair when the
line carries a non-empty first double-quoted segment; a block whose name
is empty ignores version lines. -/
def yarnSpecStep (st : YarnState) (raw : List Char) : YarnState × List (List Char × List Char) :=
  let line := trimChars raw
  if yarnBlankLine line then (st, [])
  else if yarnHeaderLine line then
    (.seekingVersion (beforeFirstAt (rstripColons line)), [])
  else
    match st with
    | .seekingPackage => (st, [])
    | .seekingVersion name =>
      if yarnVersionGuard line name then
        match yarnQuoted line with
        | some v => if v.isEmpty then (.seekingPackage, []) else (.seekingPackage, [(name, v)])
        | none => (.seekingPackage, [])
      else (st, [])

/-- Run the two-state machine over the lines, concatenating emissions. -/
def yarnSpecRun (st : YarnState) : List (List Char) → List (List Char × List Char)
  | [] => []
  | l :: rest =>
    let s := yarnSpecStep st l
    s.2 ++ yarnSpecRun s.1 rest

/-- The source state `current_package` as a machine state (`None` and the
empty string are both falsy to the version-line guard, but `None` and
`some ""` are distinguishable states). -/
def toYarnState : Option (List Char) → YarnState
  | none => .seekingPackage
  | some n => .seekingVersion n

/-- The lines after the first line whose stripped content is
`"packages:"` (`none` when there is no such line). -/
def dropToPackages : List (List Char) → Option (List (List Char))
  | [] => none
  | l :: rest =>
    if trimChars l = "packages:".data then some rest else dropToPackages rest

/-- Spec-side description of the pnpm scan as the code actually behaves:
every line after the first `packages:` line that starts with `"  /"` is
parsed by `pnpmEntry`, wherever it occurs. -/
def pnpmSpecPairs (lines : List (List Char)) : List (List Char × List Char) :=
  match dropToPackages lines with
  | none => []
  | some rest => (rest.filter (fun l => "  /".data.isPrefixOf l)).filterMap pnpmEntry

/-- `optOr a b` is `a` unless it is `none`, then `b` (Python-style
"first hit wins" combination of two lookups). -/
def optOr {β : Type} (a b : Option β) : Option β :=
  match a with
  | some v => some v
  | none => b

/-! ## Helper lemmas -/

theorem optOr_none_right {β : Type} (a : Option β) : optOr a none = a := by
  cases a <;> rfl

theorem optOr_assoc {β : Type} (a b c : Option β) :
    optOr (optOr a b) c = optOr a (optOr b c) := by
  cases a <;> rfl

theorem optOr_if_none {β : Type} (c : Prop) [Decidable c] (x : β) (b : Option β) :
    optOr (if c then some x else none) b = if c then some x else b := by
  split <;> rfl

theorem keyFind_nil {β : Type} (k : String) : keyFind ([] : List (String × β)) k = none := rfl

theorem keyFind_cons {β : Type} (e : String × β) (m : List (String × β)) (k : String) :
    keyFind (e :: m) k = if e.1 = k then some e.2 else keyFind m k := by
  by_cases h : e.1 = k <;> simp [keyFind, List.find?_cons, h]

theorem keyFind_append {β : Type} (m l : List (String × β)) (k : String) :
    keyFind (m ++ l) k = optOr (keyFind m k) (keyFind l k) := by
  induction m with
  | nil => simp [keyFind_nil, optOr]
  | cons e m ih =>
    rw [List.cons_append, keyFind_cons, keyFind_cons]
    by_cases h : e.1 = k <;> simp [h, ih, optOr]

theorem keyFind_eq_none_of_not_any {β : Type} (m : List (String × β)) (k : String)
    (h : m.any (fun p => p.1 = k) = false) : keyFind m k = none := by
  induction m with
  | nil => rfl
  | cons e m ih =>
    rw [List.any_cons, Bool.or_eq_false_iff] at h
    rw [keyFind_cons, if_neg (by simpa using h.1)]
    exact ih h.2

theorem foldl_append_filter {α : Type} (p : α → Bool) (l acc : List α) :
    l.foldl (fun a x => if p x then a ++ [x] else a) acc = acc ++ l.filter p := by
  induction l generalizing acc with
  | nil => simp
  | cons x l ih =>
    rw [List.foldl_cons, List.filter_cons]
    by_cases h : p x
    · rw [if_pos h, if_pos h, ih, List.append_assoc]; rfl
    · rw [if_neg h, if_neg h, ih]

theorem jget_foldl_init (k : String) (kvs : List (String × Json)) (r0 : Option Json) :
    kvs.foldl (fun r p => if p.1 = k then some p.2 else r) r0 = optOr (jget kvs k) r0 := by
  induction kvs generalizing r0 with
  | nil => rfl
  | cons p kvs ih =>
    rw [List.foldl_cons, ih, show jget (p :: kvs) k =
        (kvs.foldl (fun r q => if q.1 = k then some q.2 else r)
          (if p.1 = k then some p.2 else none)) from rfl,
      ih, optOr_assoc, optOr_if_none]

theorem jget_cons (p : String × Json) (kvs : List (String × Json)) (k : String) :
    jget (p :: kvs) k = optOr (jget kvs k) (if p.1 = k then some p.2 else none) := by
  show kvs.foldl (fun r q => if q.1 = k then some q.2 else r)
      (if p.1 = k then some p.2 else none) = _
  exact jget_foldl_init k kvs _

theorem jget_append (a b : List (String × Json)) (k : String) :
    jget (a ++ b) k = optOr (jget b k) (jget a k) := by
  show (a ++ b).foldl (fun r q => if q.1 = k then some q.2 else r) none = _
  rw [List.foldl_append]
  exact jget_foldl_init k b _

theorem depFind_map_overwrite_hit (m : List (String × Json)) (k' : String) (v : Json)
    (h : m.any (fun p => p.1 = k') = true) :
    keyFind (m.map (fun p => if p.1 = k' then (k', v) else p)) k' = some v := by
  induction m with
  | nil => simp at h
  | cons e m ih =>
    rw [List.any_cons] at h
    by_cases he : e.1 = k'
    · simp only [List.map_cons, if_pos he, keyFind_cons]
      simp
    · rw [List.map_cons, if_neg he, keyFind_cons, if_neg he]
      exact ih (by simpa [he] using h)

theorem depFind_map_overwrite_miss (m : List (String × Json)) (k' : String) (v : Json)
    (k : String) (hk : ¬ k' = k) :
    keyFind (m.map (fun p => if p.1 = k' then (k', v) else p)) k = keyFind m k := by
  induction m with
  | nil => rfl
  | cons e m ih =>
    by_cases he : e.1 = k'
    · rw [List.map_cons, if_pos he, keyFind_cons, keyFind_cons, if_neg hk,
        if_neg (show ¬ e.1 = k by rw [he]; exact hk)]
      exact ih
    · rw [List.map_cons, if_neg he, keyFind_cons, keyFind_cons]
      by_cases h2 : e.1 = k
      · rw [if_pos h2, if_pos h2]
      · rw [if_neg h2, if_neg h2]; exact ih

theorem depFind_dictInsert (m : List (String × Json)) (k' : String) (v : Json) (k : String) :
    depFind (dictInsert m k' v) k = if k' = k then some v else depFind m k := by
  unfold dictInsert depFind
  by_cases hany : m.any (fun p => p.1 = k') = true
  · rw [if_pos hany]
    by_cases hk : k' = k
    · subst hk
      rw [if_pos rfl]
      exact depFind_map_overwrite_hit m k' v hany
    · rw [if_neg hk]
      exact depFind_map_overwrite_miss m k' v k hk
  · rw [if_neg hany, keyFind_append, keyFind_cons, keyFind_nil]
    by_cases hk : k' = k
    · subst hk
      rw [keyFind_eq_none_of_not_any m k' (Bool.eq_false_iff.mpr hany)]
      simp [optOr]
    · rw [if_neg hk, if_neg hk, optOr_none_right]

theorem depFind_dictUpdate (m kvs : List (String × Json)) (k : String) :
    depFind (dictUpdate m kvs) k = optOr (jget kvs k) (depFind m k) := by
  induction kvs generalizing m with
  | nil => rfl
  | cons p kvs ih =>
    show depFind (dictUpdate (dictInsert m p.1 p.2) kvs) k = _
    rw [ih, depFind_dictInsert, jget_cons, optOr_assoc, optOr_if_none]

theorem manifestStep_eq (data : Json) (acc : List (String × Json)) (key : String) :
    manifestStep data acc key = dictUpdate acc (groupFields data key) := by
  unfold manifestStep groupFields
  cases h : objGet data key with
  | none => rfl
  | some j => cases j <;> rfl

/-- Any fold whose step preserves present bindings preserves them. -/
theorem depFind_foldl_preserve {γ : Type} (step : List (String × Json) → γ → List (String × Json))
    (k : String) (v : Json)
    (hstep : ∀ m p, depFind m k = some v → depFind (step m p) k = some v) :
    ∀ (l : List γ) (m : List (String × Json)),
      depFind m k = some v → depFind (l.foldl step m) k = some v := by
  intro l
  induction l with
  | nil => intro m h; exact h
  | cons p l ih => intro m h; exact ih _ (hstep _ _ h)

theorem depFind_fillV1Step (m : List (String × Json)) (p : String × Json) (k : String) (v : Json)
    (h : depFind m k = some v) : depFind (fillV1Step m p) k = some v := by
  unfold fillV1Step
  split
  · exact h
  · unfold depFind at h ⊢
    rw [keyFind_append, h]
    rfl

theorem depFind_fillV2Step (m : List (String × Json)) (p : String × Json) (k : String) (v : Json)
    (h : depFind m k = some v) : depFind (fillV2Step m p) k = some v := by
  unfold fillV2Step
  split
  all_goals try exact h
  split
  all_goals try exact h
  split
  · unfold depFind at h ⊢
    rw [keyFind_append, h]
    rfl
  · exact h

theorem depFind_fillLockV1 (data : Json) (acc : List (String × Json)) (k : String) (v : Json)
    (h : depFind acc k = some v) : depFind (fillLockV1 data acc) k = some v := by
  unfold fillLockV1
  split
  all_goals try exact h
  exact depFind_foldl_preserve fillV1Step k v (fun m p => depFind_fillV1Step m p k v) _ acc h

theorem depFind_fillLockV2 (data : Json) (acc : List (String × Json)) (k : String) (v : Json)
    (h : depFind acc k = some v) : depFind (fillLockV2 data acc) k = some v := by
  unfold fillLockV2
  split
  all_goals try exact h
  exact depFind_foldl_preserve fillV2Step k v (fun m p => depFind_fillV2Step m p k v) _ acc h

/-! ## Claim theorems -/

/-- C1: a package name bound by the manifest-level dependency groups keeps
exactly that binding through the lock-file merge steps: lockV1 and lockV2
entries only fill names not already present, so the package resolves to
the manifest-level version. -/
theorem manifest_binding_survives_lock_merge (data : Json) (name : String) (info : Json)
    (h : depFind (manifestDeps data) name = some info) :
    depFind (mergedDependencies data) name = some info :=
  depFind_fillLockV2 data _ name info (depFind_fillLockV1 data _ name info h)

/-- Witness for C1: `a` is declared at `1.0.0` in `devDependencies` and
present at `2.0.0` in the lockV2 `packages` map; the merge keeps `1.0.0`. -/
theorem manifest_binding_survives_lock_merge_witness :
    depFind (manifestDeps (Json.obj
      [("devDependencies", Json.obj [("a", Json.str "1.0.0")]),
       ("packages", Json.obj [("node_modules/a",
          Json.obj [("name", Json.str "a"), ("version", Json.str "2.0.0")])])])) "a"
      = some (Json.str "1.0.0") ∧
    depFind (mergedDependencies (Json.obj
      [("devDependencies", Json.obj [("a", Json.str "1.0.0")]),
       ("packages", Json.obj [("node_modules/a",
          Json.obj [("name", Json.str "a"), ("version", Json.str "2.0.0")])])])) "a"
      = some (Json.str "1.0.0") :=
  ⟨rfl, manifest_binding_survives_lock_merge _ "a" _ rfl⟩

/-- C2 counterexample: `a` is in `dependencies` at `1.0.0` and in
`devDependencies` at `2.0.0`; the parse resolves `a` to `2.0.0` — the
later group overwrites — so the record does not carry the `dependencies`
version, contradicting the claim. -/
theorem declared_over_dev_counterexample :
    depFind (mergedDependencies (Json.obj
      [("dependencies", Json.obj [("a", Json.str "1.0.0")]),
       ("devDependencies", Json.obj [("a", Json.str "2.0.0")])])) "a"
      = some (Json.str "2.0.0") ∧
    ¬ depFind (mergedDependencies (Json.obj
      [("dependencies", Json.obj [("a", Json.str "1.0.0")]),
       ("devDependencies", Json.obj [("a", Json.str "2.0.0")])])) "a"
      = some (Json.str "1.0.0") := by
  refine ⟨rfl, fun h => ?_⟩
  rw [show depFind (mergedDependencies (Json.obj
      [("dependencies", Json.obj [("a", Json.str "1.0.0")]),
       ("devDependencies", Json.obj [("a", Json.str "2.0.0")])])) "a"
      = some (Json.str "2.0.0") from rfl] at h
  injection h with h1
  injection h1 with h2
  exact absurd h2 (by decide)

/-- C2 amended: within the manifest-level groups the merge is
last-write-wins — the resolved binding for a name is its last occurrence
across `dependencies`, `devDependencies`, `peerDependencies`,
`optionalDependencies` in that processing order (so `devDependencies`
overrides `dependencies`, and so on). -/
theorem manifest_group_merge_last_wins (data : Json) (name : String) :
    depFind (manifestDeps data) name =
      jget (groupFields data "dependencies" ++ groupFields data "devDependencies" ++
        groupFields data "peerDependencies" ++ groupFields data "optionalDependencies") name := by
  have h : manifestDeps data =
      dictUpdate (dictUpdate (dictUpdate (dictUpdate []
        (groupFields data "dependencies")) (groupFields data "devDependencies"))
        (groupFields data "peerDependencies")) (groupFields data "optionalDependencies") := by
    unfold manifestDeps manifestGroupKeys
    rw [List.foldl_cons, List.foldl_cons, List.foldl_cons, List.foldl_cons, List.foldl_nil,
      manifestStep_eq, manifestStep_eq, manifestStep_eq, manifestStep_eq]
  rw [h, depFind_dictUpdate, depFind_dictUpdate, depFind_dictUpdate, depFind_dictUpdate,
    jget_append, jget_append, jget_append]
  rw [show depFind [] name = none from rfl, optOr_none_right]

theorem keyFind_catAppend_map (db : Catalog) (pkg : String) (v : Vuln) (k : String)
    (h : ¬ pkg = k) :
    keyFind (db.map (fun e => if e.1 = pkg then (e.1, e.2 ++ [v]) else e)) k = keyFind db k := by
  induction db with
  | nil => rfl
  | cons e db ih =>
    by_cases he : e.1 = pkg
    · have hek : ¬ e.1 = k := fun hh => h (he.symm.trans hh)
      simp only [List.map_cons, if_pos he, keyFind_cons, if_neg hek]
      exact ih
    · simp only [List.map_cons, if_neg he, keyFind_cons]
      by_cases h2 : e.1 = k
      · rw [if_pos h2, if_pos h2]
      · rw [if_neg h2, if_neg h2]
        exact ih

theorem catFind_catAppend_ne (db : Catalog) (pkg : String) (v : Vuln) (k : String)
    (h : ¬ pkg = k) : catFind (catAppend db pkg v) k = catFind db k := by
  unfold catAppend catFind
  split
  · exact keyFind_catAppend_map db pkg v k h
  · rw [keyFind_append, keyFind_cons, keyFind_nil, if_neg h, optOr_none_right]

theorem catFind_shaiStep (acc : Catalog) (row : String × String) (k : String)
    (h : ¬ (⟨trimChars row.1.data⟩ : String) = k) :
    catFind (shaiStep acc row) k = catFind acc k := by
  unfold shaiStep
  dsimp only
  split
  · rfl
  · exact catFind_catAppend_ne _ _ _ _ h

theorem catFind_foldl_shai (k : String) (rows : List (String × String)) :
    ∀ (db : Catalog),
      rows.all (fun r => !((⟨trimChars r.1.data⟩ : String) = k)) = true →
      catFind (rows.foldl shaiStep db) k = catFind db k := by
  induction rows with
  | nil => intro db _; rfl
  | cons r rows ih =>
    intro db hall
    rw [List.all_cons, Bool.and_eq_true] at hall
    rw [List.foldl_cons, ih _ hall.2, catFind_shaiStep db r k (by simpa using hall.1)]

set_option maxRecDepth 40000 in
/-- The package `lodash` is absent from the shai-hulud-2 rows, so its
catalog entry is exactly its built-in CVE rule. -/
theorem catFind_builtin_lodash :
    catFind builtinCatalog "lodash" =
      some [⟨"<4.17.21", "HIGH", some "CVE-2021-23337",
        some "Command injection via template function"⟩] := by
  unfold builtinCatalog loadShaiHulud
  rw [catFind_foldl_shai "lodash" shaiHuludRows builtinCVE (by decide)]
  rfl

/-- With the catalog entry for a name given, `is_vulnerable` is the rule
filter loop over that entry.  (Stated over a free catalog so the
catalog value itself is never reduced.) -/
theorem is_vulnerable_of_catFind (db : Catalog) (name version : String) (rules : List Vuln)
    (h : catFind db name = some rules) :
    is_vulnerable db name version =
      rules.foldl (fun acc v => if is_version_in_range version v.range then acc ++ [v] else acc)
        [] := by
  unfold is_vulnerable
  rw [h]

/-- C5: scanning the manifest content
`\x7b"dependencies": \x7b"lodash": "4.17.20"\x7d\x7d` against the
bootstrap-seeded catalog yields exactly one finding: `lodash`, matched
range `<4.17.21`, severity HIGH. -/
theorem bootstrap_lodash_end_to_end :
    scan_json_dependencies
      (some (Json.obj [("dependencies", Json.obj [("lodash", Json.str "4.17.20")])]))
      builtinCatalog =
    [{ package := "lodash", version := "4.17.20", clean_version := "4.17.20",
       severity := "HIGH", cve_id := some "CVE-2021-23337",
       description := some "Command injection via template function",
       vulnerable_range := "<4.17.21" }] := by
  have hv : is_vulnerable builtinCatalog "lodash" "4.17.20" =
      [⟨"<4.17.21", "HIGH", some "CVE-2021-23337",
        some "Command injection via template function"⟩] :=
    (is_vulnerable_of_catFind builtinCatalog "lodash" "4.17.20" _
      catFind_builtin_lodash).trans (by decide)
  have hstep : ∀ db : Catalog,
      scan_json_dependencies
        (some (Json.obj [("dependencies", Json.obj [("lodash", Json.str "4.17.20")])])) db =
      (is_vulnerable db "lodash" "4.17.20").map (mkFinding "lodash" "4.17.20" "4.17.20") :=
    fun db => rfl
  rw [hstep, hv]
  rfl

/-- C3: for every version string and range-expression string, the single
range test is a total function, and whenever either side fails to parse
under the version/range grammar the test evaluates to `false` rather than
failing. -/
theorem range_test_unparsable_is_false (version range_expr : String)
    (h : parseRangeChars range_expr.data = none ∨
         parseVersionChars (lstripTildeCaret version.data) = none) :
    is_version_in_range version range_expr = false := by
  unfold is_version_in_range
  rcases h with h | h
  · rw [h]
  · cases hr : parseRangeChars range_expr.data with
    | none => rfl
    | some spec => rw [h]

/-- Witness for C3 at a concrete unparsable version. -/
theorem range_test_unparsable_is_false_witness :
    (parseVersionChars (lstripTildeCaret ("not-a-version" : String).data) = none) ∧
    is_version_in_range "not-a-version" "<1.0.0" = false :=
  ⟨by decide, range_test_unparsable_is_false "not-a-version" "<1.0.0" (Or.inr (by decide))⟩

/-- C4: `is_vulnerable` returns exactly the rules stored under the
package name (exact, case-sensitive dict key) whose range the version
satisfies, in stored order — `filter` of the looked-up rule list — and a
package with no catalog entry yields `[]`. -/
theorem is_vulnerable_eq_filter (db : Catalog) (name version : String) :
    is_vulnerable db name version =
      ((catFind db name).getD []).filter (fun v => is_version_in_range version v.range) := by
  unfold is_vulnerable
  cases h : catFind db name with
  | none => rfl
  | some vulns =>
    simpa using foldl_append_filter (fun v => is_version_in_range version v.range) vulns []

/-- C7: a JSON-family parse of content that is not valid JSON (the
decoder yields no value) returns the empty list — through the dispatcher
for both recognized JSON-family file names — and, being a total
function, never raises. -/
theorem malformed_json_scan_empty (db : Catalog) (content : String) (file_type : String)
    (h : file_type = "package.json" ∨ file_type = "package-lock.json") :
    scan_dependency_file file_type none content db = [] := by
  unfold scan_dependency_file
  rw [if_pos h]
  rfl

/-- Witness for C7 at `package.json` with non-JSON content. -/
theorem malformed_json_scan_empty_witness :
    (("package.json" : String) = "package.json" ∨ ("package.json" : String) = "package-lock.json") ∧
    scan_dependency_file "package.json" none "this is not json" builtinCVE = [] :=
  ⟨Or.inl rfl, malformed_json_scan_empty builtinCVE "this is not json" "package.json" (Or.inl rfl)⟩

theorem mem_dropWhile_of_neg {p : Char → Bool} {a : Char} (ha : p a = false) :
    ∀ {xs : List Char}, a ∈ xs → a ∈ xs.dropWhile p := by
  intro xs
  induction xs with
  | nil => intro h; exact absurd h (List.not_mem_nil a)
  | cons x xs ih =>
    intro h
    rw [List.dropWhile_cons]
    by_cases hpx : p x = true
    · rw [if_pos hpx]
      rcases List.mem_cons.mp h with heq | hmem
      · subst heq; rw [ha] at hpx; exact Bool.noConfusion hpx
      · exact ih hmem
    · rw [if_neg hpx]; exact h

theorem head_of_rstrip_last {p : Char → Bool} (c : Char) (hc : p c = false) (t : List Char) :
    ∃ t', ((t ++ [c]).dropWhile p).reverse = c :: t' := by
  rw [List.dropWhile_append]
  split
  · refine ⟨[], ?_⟩
    rw [List.dropWhile_cons, if_neg (by rw [hc]; exact Bool.noConfusion)]
    rfl
  · exact ⟨(t.dropWhile p).reverse, by rw [List.reverse_append]; rfl⟩

theorem rstripColons_head (c : Char) (hc : ¬ c = ':') (t : List Char) :
    ∃ t', rstripColons (c :: t) = c :: t' := by
  unfold rstripColons
  rw [List.reverse_cons]
  exact head_of_rstrip_last c (decide_eq_false hc) t.reverse

theorem trimChars_head (c : Char) (hc : c.isWhitespace = false) (t : List Char) :
    ∃ t', trimChars (c :: t) = c :: t' := by
  unfold trimChars
  rw [List.dropWhile_cons, if_neg (by rw [hc]; exact Bool.noConfusion), List.reverse_cons]
  exact head_of_rstrip_last c hc t.reverse

theorem beforeFirstAt_scoped (t : List Char) : beforeFirstAt ('@' :: t) = [] := rfl

theorem yarn_scoped_name (hdr : List Char) (h : hdr.head? = some '@') :
    beforeFirstAt (rstripColons hdr) = [] := by
  cases hdr with
  | nil => cases h
  | cons c t =>
    have hc : c = '@' := by simpa using h
    subst hc
    obtain ⟨t', ht⟩ := rstripColons_head '@' (by decide) t
    rw [ht]
    exact beforeFirstAt_scoped t'

theorem any_at_rstripColons (line : List Char)
    (h : line.any (fun c => c = '@') = true) :
    (rstripColons line).any (fun c => c = '@') = true := by
  rw [List.any_eq_true] at h ⊢
  obtain ⟨x, hx, hx2⟩ := h
  have hx3 : x = '@' := by simpa using hx2
  subst hx3
  refine ⟨'@', ?_, by simp⟩
  unfold rstripColons
  rw [List.mem_reverse]
  exact mem_dropWhile_of_neg (by decide) (List.mem_reverse.mpr hx)

theorem yarnStep_scoped (cur : Option (List Char)) (raw : List Char)
    (hcur : cur = none ∨ cur = some [])
    (hhd : yarnHeaderLine (trimChars raw) = true → (trimChars raw).head? = some '@') :
    ((yarnStep cur raw).1 = none ∨ (yarnStep cur raw).1 = some []) ∧
      (yarnStep cur raw).2 = [] := by
  unfold yarnStep
  dsimp only
  by_cases h1 : yarnBlankLine (trimChars raw) = true
  · rw [if_pos h1]
    exact ⟨hcur, rfl⟩
  · rw [if_neg h1]
    by_cases h2 : yarnHeaderLine (trimChars raw) = true
    · rw [if_pos h2]
      have hname : beforeFirstAt (rstripColons (trimChars raw)) = [] :=
        yarn_scoped_name _ (hhd h2)
      dsimp only
      refine ⟨?_, rfl⟩
      split
      · exact Or.inr (by rw [hname])
      · exact hcur
    · rw [if_neg h2]
      rcases hcur with rfl | rfl
      · exact ⟨Or.inl rfl, rfl⟩
      · rw [show (match (some [] : Option (List Char)) with
            | some pkg =>
              if yarnVersionGuard (trimChars raw) pkg then
                match yarnQuoted (trimChars raw) with
                | some v => if v.isEmpty then (none, []) else (none, [(pkg, v)])
                | none => ((none : Option (List Char)), ([] : List (List Char × List Char)))
              else (some pkg, [])
            | none => (none, [])) =
            (if yarnVersionGuard (trimChars raw) [] then
              match yarnQuoted (trimChars raw) with
              | some v => if v.isEmpty then (none, []) else (none, [([], v)])
              | none => ((none : Option (List Char)), ([] : List (List Char × List Char)))
            else (some [], [])) from rfl]
        rw [if_neg (by simp [yarnVersionGuard])]
        exact ⟨Or.inr rfl, rfl⟩

theorem yarnStep_eq_spec (cur : Option (List Char)) (raw : List Char) :
    yarnSpecStep (toYarnState cur) raw =
      (toYarnState (yarnStep cur raw).1, (yarnStep cur raw).2) := by
  unfold yarnSpecStep yarnStep
  dsimp only
  by_cases h1 : yarnBlankLine (trimChars raw) = true
  · simp only [if_pos h1]
  · simp only [if_neg h1]
    by_cases h2 : yarnHeaderLine (trimChars raw) = true
    · have h2b := h2
      unfold yarnHeaderLine at h2b
      rw [Bool.and_eq_true] at h2b
      have hpres : (rstripColons (trimChars raw)).any (fun c => c = '@') = true :=
        any_at_rstripColons _ h2b.2
      simp only [if_pos h2, if_pos hpres, toYarnState]
    · simp only [if_neg h2]
      cases cur with
      | none => rfl
      | some pkg =>
        by_cases h3 : yarnVersionGuard (trimChars raw) pkg = true
        · simp only [toYarnState, if_pos h3]
          cases hq : yarnQuoted (trimChars raw) with
          | none => simp only [hq]
          | some v =>
            simp only [hq]
            by_cases h4 : v.isEmpty = true
            · simp only [if_pos h4, toYarnState]
            · simp only [if_neg h4, toYarnState]
        · simp only [toYarnState, if_neg h3]

theorem yarnGo_scoped_only (ls : List (List Char)) :
    ∀ cur : Option (List Char), (cur = none ∨ cur = some []) →
      (∀ raw ∈ ls, yarnHeaderLine (trimChars raw) = true → (trimChars raw).head? = some '@') →
      yarnPairsGo cur ls = [] := by
  induction ls with
  | nil => intro cur _ _; rfl
  | cons raw rest ih =>
    intro cur hcur hall
    have hs := yarnStep_scoped cur raw hcur (hall raw (List.mem_cons_self raw rest))
    simp only [yarnPairsGo]
    rw [hs.2, List.nil_append]
    exact ih _ hs.1 (fun r hr => hall r (List.mem_cons_of_mem raw hr))

theorem yarnGo_eq_specRun (ls : List (List Char)) :
    ∀ cur : Option (List Char),
      yarnPairsGo cur ls = yarnSpecRun (toYarnState cur) ls := by
  induction ls with
  | nil => intro cur; rfl
  | cons raw rest ih =>
    intro cur
    simp only [yarnPairsGo, yarnSpecRun]
    rw [yarnStep_eq_spec cur raw, ih ((yarnStep cur raw).1)]

theorem not_mem_headD_splitOnPred {p : Char → Bool} {a : Char} (ha : p a = true) :
    ∀ xs : List Char, a ∉ (splitOnPred p xs).headD [] := by
  intro xs
  induction xs with
  | nil => exact List.not_mem_nil a
  | cons c rest ih =>
    simp only [splitOnPred]
    by_cases hp : p c = true
    · rw [if_pos hp]
      exact List.not_mem_nil a
    · rw [if_neg hp]
      cases hsplit : splitOnPred p rest with
      | nil =>
        intro hmem
        rcases List.mem_singleton.mp hmem with rfl
        exact hp ha
      | cons g gs =>
        intro hmem
        rcases List.mem_cons.mp hmem with rfl | hmem2
        · exact hp ha
        · rw [hsplit] at ih
          exact ih hmem2

/-- The extracted yarn package name is the text before the first `'@'`,
so it never contains `'@'` at all. -/
theorem no_at_in_beforeFirstAt (xs : List Char) : '@' ∉ beforeFirstAt xs :=
  not_mem_headD_splitOnPred (by decide) xs

theorem yarnStep_no_at (cur : Option (List Char)) (raw : List Char)
    (hcur : ∀ n, cur = some n → '@' ∉ n) :
    (∀ n, (yarnStep cur raw).1 = some n → '@' ∉ n) ∧
      (∀ pv ∈ (yarnStep cur raw).2, '@' ∉ pv.1) := by
  unfold yarnStep
  dsimp only
  by_cases h1 : yarnBlankLine (trimChars raw) = true
  · simp only [if_pos h1]
    exact ⟨hcur, fun pv h => absurd h (List.not_mem_nil pv)⟩
  · simp only [if_neg h1]
    by_cases h2 : yarnHeaderLine (trimChars raw) = true
    · simp only [if_pos h2]
      refine ⟨?_, fun pv h => absurd h (List.not_mem_nil pv)⟩
      intro n h
      revert h
      show (if _ then some (beforeFirstAt (rstripColons (trimChars raw))) else cur) = some n → _
      split
      · intro h
        injection h with h'
        rw [← h']
        exact no_at_in_beforeFirstAt _
      · intro h
        exact hcur n h
    · simp only [if_neg h2]
      cases cur with
      | none =>
        exact ⟨fun n h => Option.noConfusion h, fun pv h => absurd h (List.not_mem_nil pv)⟩
      | some pkg =>
        by_cases h3 : yarnVersionGuard (trimChars raw) pkg = true
        · simp only [if_pos h3]
          cases hq : yarnQuoted (trimChars raw) with
          | none =>
            simp only [hq]
            exact ⟨fun n h => Option.noConfusion h, fun pv h => absurd h (List.not_mem_nil pv)⟩
          | some v =>
            simp only [hq]
            by_cases h4 : v.isEmpty = true
            · simp only [if_pos h4]
              exact ⟨fun n h => Option.noConfusion h, fun pv h => absurd h (List.not_mem_nil pv)⟩
            · simp only [if_neg h4]
              refine ⟨fun n h => Option.noConfusion h, fun pv hmem => ?_⟩
              rcases List.mem_singleton.mp hmem with rfl
              exact hcur pkg rfl
        · simp only [if_neg h3]
          exact ⟨hcur, fun pv h => absurd h (List.not_mem_nil pv)⟩

theorem yarnGo_no_at (ls : List (List Char)) :
    ∀ cur : Option (List Char), (∀ n, cur = some n → '@' ∉ n) →
      ∀ pv ∈ yarnPairsGo cur ls, '@' ∉ pv.1 := by
  induction ls with
  | nil => intro cur _ pv h; exact absurd h (List.not_mem_nil pv)
  | cons raw rest ih =>
    intro cur hin pv h
    have hs := yarnStep_no_at cur raw hin
    simp only [yarnPairsGo] at h
    rcases List.mem_append.mp h with h | h
    · exact hs.2 pv h
    · exact ih _ hs.1 pv h

/-- C6 counterexample: an unquoted scoped header opens a block whose
extracted name is the empty string, and the following version line emits
nothing at all — the claimed capture/emit/reset of the first version
line does not happen for scoped blocks. -/
theorem yarn_scoped_block_counterexample :
    beforeFirstAt (rstripColons (trimChars "@scope/pkg@^1.0.0:".data)) = [] ∧
    yarnPairs "@scope/pkg@^1.0.0:\n  version \"9.9.9\"" = [] := by
  exact ⟨by decide, by decide⟩

/-- C6 amended: the yarn.lock scan is the two-state machine
`seekingPackage` / `seekingVersion`: a non-comment line ending in `':'`
and containing `'@'` opens a block named by the substring before the
first `'@'` of the colon-stripped header; while a block with a non-empty
name is open, the first subsequent line beginning with `version` resets
the state, emitting the pair when the line carries a non-empty first
double-quoted segment; a block whose extracted name is empty (an
unquoted scoped header) ignores version lines — nothing is emitted and
the state is not reset — so at most one version, the first version
line, is emitted per block. -/
theorem yarn_scan_is_two_state_machine (content : String) :
    yarnPairs content = yarnSpecRun YarnState.seekingPackage (splitLines content) :=
  yarnGo_eq_specRun (splitLines content) none

/-- C10: an unquoted scoped yarn.lock header (beginning with `'@'`)
yields the empty string as the extracted package name, and — for every
yarn.lock content against every catalog, mixed files included — no
emitted finding ever carries a package name containing `'@'`: no finding
can match a catalog rule keyed by a non-empty scoped name, so scoped
packages are never reported vulnerable. -/
theorem scoped_yarn_never_flagged :
    (∀ hdr : List Char, hdr.head? = some '@' → beforeFirstAt (rstripColons hdr) = []) ∧
    (∀ (db : Catalog) (content : String) (f : Finding),
      f ∈ scan_yarn_lock db content → '@' ∉ f.package.data) := by
  refine ⟨fun hdr h => yarn_scoped_name hdr h, fun db content f hf => ?_⟩
  unfold scan_yarn_lock at hf
  rw [List.mem_flatMap] at hf
  obtain ⟨pv, hpv, hf2⟩ := hf
  rw [List.mem_map] at hf2
  obtain ⟨vu, hvu, rfl⟩ := hf2
  exact yarnGo_no_at (splitLines content) none (fun n h => Option.noConfusion h) pv hpv

/-- Witness for C10 at a concrete mixed yarn.lock: the scoped block
contributes nothing, the unscoped `ws` block is flagged, and the
theorem applies to that emitted finding. -/
theorem scoped_yarn_never_flagged_witness :
    beforeFirstAt (rstripColons ("@babel/core@^7.0.0:".data)) = [] ∧
    scan_yarn_lock builtinCVE
        "@scope/x@^1.0.0:\n  version \"9.9.9\"\nws@^8.17.0:\n  version \"8.17.0\"" =
      [{ package := "ws", version := "8.17.0", clean_version := "8.17.0",
         severity := "HIGH", cve_id := some "CVE-2024-37890",
         description := some "Resource exhaustion / unhandled exception",
         vulnerable_range := ">=8.0.0 <8.17.1" }] ∧
    '@' ∉ ({ package := "ws", version := "8.17.0", clean_version := "8.17.0",
             severity := "HIGH", cve_id := some "CVE-2024-37890",
             description := some "Resource exhaustion / unhandled exception",
             vulnerable_range := ">=8.0.0 <8.17.1" } : Finding).package.data :=
  ⟨scoped_yarn_never_flagged.1 _ (by decide),
   by decide,
   scoped_yarn_never_flagged.2 builtinCVE
     "@scope/x@^1.0.0:\n  version \"9.9.9\"\nws@^8.17.0:\n  version \"8.17.0\"" _ (by decide)⟩

theorem trim_two_space_slash (raw : List Char) (h : "  /".data.isPrefixOf raw = true) :
    (trimChars raw).head? = some '/' := by
  obtain ⟨t, rfl⟩ : ∃ t, raw = ' ' :: ' ' :: '/' :: t := by
    rw [List.isPrefixOf_iff_prefix] at h
    obtain ⟨t, ht⟩ := h
    exact ⟨t, ht.symm⟩
  unfold trimChars
  rw [List.dropWhile_cons, if_pos (by decide), List.dropWhile_cons, if_pos (by decide),
    List.dropWhile_cons, if_neg (by decide), List.reverse_cons]
  obtain ⟨t', ht'⟩ := head_of_rstrip_last (p := Char.isWhitespace) '/' (by decide) t.reverse
  rw [ht']
  rfl

theorem pnpm_slash_line_ne_packages (raw : List Char) (h : "  /".data.isPrefixOf raw = true) :
    ¬ trimChars raw = "packages:".data := by
  intro he
  have h1 := trim_two_space_slash raw h
  rw [he] at h1
  exact absurd h1 (by decide)

theorem pnpmGo_true (ls : List (List Char)) :
    pnpmPairsGo true ls = (ls.filter (fun l => "  /".data.isPrefixOf l)).filterMap pnpmEntry := by
  induction ls with
  | nil => rfl
  | cons raw rest ih =>
    simp only [pnpmPairsGo, List.filter_cons]
    by_cases hp : trimChars raw = "packages:".data
    · have hpre' : "  /".data.isPrefixOf raw = false := by
        cases hx : "  /".data.isPrefixOf raw
        · rfl
        · exact absurd hp (pnpm_slash_line_ne_packages raw hx)
      simp only [if_pos hp, hpre', if_neg Bool.false_ne_true]
      exact ih
    · simp only [if_neg hp, Bool.true_and]
      by_cases hpre : "  /".data.isPrefixOf raw = true
      · simp only [if_pos hpre, List.filterMap_cons]
        cases he : pnpmEntry raw with
        | none => simp only [he]; exact ih
        | some pv => simp only [he]; rw [ih]
      · have hpre' : "  /".data.isPrefixOf raw = false := by
          cases hx : "  /".data.isPrefixOf raw
          · rfl
          · exact absurd hx hpre
        simp only [hpre', if_neg Bool.false_ne_true]
        exact ih

theorem pnpmGo_false (ls : List (List Char)) :
    pnpmPairsGo false ls = pnpmSpecPairs ls := by
  induction ls with
  | nil => rfl
  | cons raw rest ih =>
    simp only [pnpmPairsGo, pnpmSpecPairs, dropToPackages]
    by_cases hp : trimChars raw = "packages:".data
    · simp only [if_pos hp]
      exact pnpmGo_true rest
    · simp only [if_neg hp, Bool.false_and, if_neg Bool.false_ne_true]
      exact ih

/-- C9 counterexample: the `packages:` flag is never reset, so the
`  /b@...` line under the later top-level `settings:` section is still
parsed; moreover the emitted version is the segment between the first
and second `'@'` (`2.0.0_`), not the whole version spec after the first
`'@'`.  The claim predicts the single record `(a, 1.0.0)`. -/
theorem pnpm_outside_block_counterexample :
    pnpmPairs "packages:\n  /a@1.0.0:\nsettings:\n  /b@2.0.0_@babel+core@7.0.0:" =
      [("a".data, "1.0.0".data), ("b".data, "2.0.0_".data)] := by decide

/-- C9 amended: once any line whose stripped content is `packages:` has
been seen (at any indentation), every subsequent line starting with
`"  /"` — anywhere later in the file, the flag is never reset — is
parsed by `pnpmEntry` (leading slashes stripped; name = text before the
first `'@'`; version = text between the first and second `'@'`, or the
whole remainder when there is only one `'@'`, truncated at its first
`':'`); lines before the first `packages:` line contribute nothing. -/
theorem pnpm_scan_characterization (content : String) :
    pnpmPairs content = pnpmSpecPairs (splitLines content) :=
  pnpmGo_false (splitLines content)

/-! ## Retry helper lemmas -/

theorem retryGo_forbidden (retries : Nat) :
    ∀ (fuel attempt : Nat),
      retryGo (fun _ => HttpOutcome.forbidden) retries attempt fuel =
        (none, (List.replicate fuel [SleepEv.rateDelay, SleepEv.ratePause]).flatten) := by
  intro fuel
  induction fuel with
  | zero => intro attempt; rfl
  | succ fuel ih =>
    intro attempt
    simp only [retryGo]
    rw [ih (attempt + 1)]
    simp [List.replicate_succ, List.flatten_cons]

theorem retryGo_netError (retries : Nat) :
    ∀ (fuel attempt : Nat),
      retryGo (fun _ => HttpOutcome.netError) retries attempt fuel =
        (none, (List.range fuel).flatMap
          (fun j => SleepEv.rateDelay ::
            (if attempt + j < retries - 1 then [SleepEv.backoff (2 ^ (attempt + j))] else []))) := by
  intro fuel
  induction fuel with
  | zero => intro attempt; rfl
  | succ fuel ih =>
    intro attempt
    simp only [retryGo]
    rw [ih (attempt + 1), List.range_succ_eq_map, List.flatMap_cons, List.flatMap_map]
    have harith : (fun j => SleepEv.rateDelay ::
        (if attempt + 1 + j < retries - 1 then [SleepEv.backoff (2 ^ (attempt + 1 + j))] else [])) =
        (fun j => SleepEv.rateDelay ::
          (if attempt + Nat.succ j < retries - 1 then
            [SleepEv.backoff (2 ^ (attempt + Nat.succ j))] else [])) := by
      funext j
      rw [show attempt + 1 + j = attempt + Nat.succ j from by omega]
    rw [harith]
    by_cases hc : attempt < retries - 1
    · simp only [if_pos hc, Nat.add_zero]
      rfl
    · simp only [if_neg hc, Nat.add_zero]
      rfl

theorem retryGo_otherStatus (retries k : Nat) :
    ∀ (fuel attempt : Nat), attempt ≤ k → k < attempt + fuel →
      retryGo (fun i => if i < k then HttpOutcome.otherStatus else HttpOutcome.success)
        retries attempt fuel =
        (some k, List.replicate (k - attempt + 1) SleepEv.rateDelay) := by
  intro fuel
  induction fuel with
  | zero => intro attempt h1 h2; exact absurd h2 (by omega)
  | succ fuel ih =>
    intro attempt h1 h2
    simp only [retryGo]
    by_cases hak : attempt < k
    · rw [if_pos hak, ih (attempt + 1) (by omega) (by omega)]
      have hrep : k - attempt + 1 = (k - (attempt + 1) + 1) + 1 := by omega
      rw [hrep]
      simp [List.replicate_succ]
    · rw [if_neg hak]
      have hek : attempt = k := by omega
      subst hek
      simp [Nat.sub_self]

/-- C8 counterexample: with one allowed attempt, a 403 followed by an
available success still ends in failure — the post-pause retry consumed
the attempt budget (with two allowed attempts the same outcome sequence
succeeds on the second attempt). -/
theorem retry_403_consumes_budget_counterexample :
    make_request_with_retry (fun i => if i = 0 then HttpOutcome.forbidden else .success) 1 =
      (none, [SleepEv.rateDelay, SleepEv.ratePause]) ∧
    make_request_with_retry (fun i => if i = 0 then HttpOutcome.forbidden else .success) 2 =
      (some 1, [SleepEv.rateDelay, SleepEv.ratePause, SleepEv.rateDelay]) := by
  exact ⟨by decide, by decide⟩

/-- C8 amended: 401 aborts the call immediately with no further
attempts; a 403 sleeps the long fixed pause and then the next attempt
proceeds, consuming the attempt budget — `n` consecutive 403s exhaust
the `n` allowed attempts and the call fails; a request exception backs
off `2 ^ attempt` before the next attempt (no backoff after the last);
any other failing HTTP status moves to the next attempt with only the
unconditional per-request rate-limit delay. -/
theorem retry_classification :
    (∀ (f : Nat → HttpOutcome) (n : Nat), 0 < n → f 0 = HttpOutcome.unauthorized →
      make_request_with_retry f n = (none, [SleepEv.rateDelay])) ∧
    (∀ n : Nat, make_request_with_retry (fun _ => HttpOutcome.forbidden) n =
      (none, (List.replicate n [SleepEv.rateDelay, SleepEv.ratePause]).flatten)) ∧
    (∀ n : Nat, make_request_with_retry (fun _ => HttpOutcome.netError) n =
      (none, (List.range n).flatMap
        (fun i => SleepEv.rateDelay ::
          (if i < n - 1 then [SleepEv.backoff (2 ^ i)] else [])))) ∧
    (∀ n k : Nat, k < n →
      make_request_with_retry (fun i => if i < k then HttpOutcome.otherStatus else .success) n =
        (some k, List.replicate (k + 1) SleepEv.rateDelay)) := by
  refine ⟨?_, ?_, ?_, ?_⟩
  · intro f n hn hf
    obtain ⟨m, rfl⟩ : ∃ m, n = m + 1 := ⟨n - 1, by omega⟩
    show retryGo f (m + 1) 0 (m + 1) = _
    simp only [retryGo, hf]
  · intro n
    exact retryGo_forbidden n n 0
  · intro n
    have h := retryGo_netError n n 0
    simpa [Nat.zero_add] using h
  · intro n k hk
    have h := retryGo_otherStatus n k n 0 (Nat.zero_le k) (by omega)
    simpa [Nat.sub_zero] using h

/-- Witness for C8 at concrete outcome sequences. -/
theorem retry_classification_witness :
    make_request_with_retry (fun _ => HttpOutcome.unauthorized) 3 =
      (none, [SleepEv.rateDelay]) ∧
    make_request_with_retry (fun i => if i < 1 then HttpOutcome.otherStatus else .success) 3 =
      (some 1, List.replicate 2 SleepEv.rateDelay) :=
  ⟨retry_classification.1 (fun _ => HttpOutcome.unauthorized) 3 (by decide) rfl,
   retry_classification.2.2.2 3 1 (by decide)⟩

end Npm3Guard
